import Mathlib

/-!
# Verification of the pg_backup_ctl catalog command layer

A shallow embedding of the catalog command objects implemented in the
repository (`BaseCatalogCommand` and its descendants, `commands` translation
unit) together with the data model from `include/catalog/descr.hxx`.

The `BackupCatalog` store itself is not part of the provided sources (only its
callers and the descriptor headers are), so the store operations are modelled
from the specification (section 4.B); each such definition carries a doc
comment starting with `Modelled from the spec:`.  All command `execute`
methods are translated directly from the source.

Execution is modelled with an explicit state (`St`) carrying the catalog
database, the snapshot taken by an open transaction, a trace of the calls
issued against the store (`Event`), and a ghost list of every error raised at
its origin site (`raised`), which lets us state that a command re-raises the
original error unchanged.  Failures of external collaborators (the streaming
connection, the filesystem, the store) are injected through an `Env` record
of failure flags, one per call site of the translated code.
-/

namespace PgBackupCtl

/-- Connection types, from `ConnectionDescr` in `descr.hxx`. -/
def CONNECTION_TYPE_BASEBACKUP : String := "basebackup"

/-- Connection type of streaming connections, from `descr.hxx`. -/
def CONNECTION_TYPE_STREAMER : String := "streamer"

/-- Sentinel connection type, default of a fresh `ConnectionDescr`. -/
def CONNECTION_TYPE_UNKNOWN : String := "unknown"

/-- Basebackup status strings, from `BaseBackupDescr` in `descr.hxx`. -/
def BASEBACKUP_STATUS_IN_PROGRESS : String := "in progress"

/-- Status of an aborted basebackup, from `descr.hxx`. -/
def BASEBACKUP_STATUS_ABORTED : String := "aborted"

/-- Status of a finalized basebackup, from `descr.hxx`. -/
def BASEBACKUP_STATUS_READY : String := "ready"

/-- Compression types of backup profiles, from `descr.hxx`. -/
inductive BackupProfileCompressType
  | typeNone
  | gzip
  | zstd
  | pbzip
  | plain
deriving DecidableEq, Repr

/-- A catalog database connection, translated from `ConnectionDescr` in
`descr.hxx` (defaults included); doubles as the persisted connection row.
The `affectedAttributes` list is the `PushableCols` state of the
descriptor. -/
structure ConnectionDescr where
  archive_id : Int := -1
  type : String := CONNECTION_TYPE_UNKNOWN
  pghost : String := ""
  pgport : Int := -1
  pguser : String := ""
  pgdatabase : String := ""
  dsn : String := ""
  affectedAttributes : List Nat := []
deriving DecidableEq, Repr

/-- A backup profile descriptor, translated from `BackupProfileDescr` in
`descr.hxx` with its field defaults; doubles as the persisted profile row. -/
structure BackupProfileDescr where
  profile_id : Int := -1
  name : String := ""
  compress_type : BackupProfileCompressType := BackupProfileCompressType.typeNone
  max_rate : Nat := 0
  label : String := "PG_BCK_CTL BASEBACKUP"
  fast_checkpoint : Bool := false
  include_wal : Bool := false
  wait_for_wal : Bool := true
  noverify_checksums : Bool := false
  affectedAttributes : List Nat := []
deriving DecidableEq, Repr

/-- A basebackup descriptor, translated from `BaseBackupDescr` in `descr.hxx`
(the fields the command layer manipulates); its default status is
`in progress` exactly as in the source. -/
structure BaseBackupDescr where
  id : Int := -1
  archive_id : Int := -1
  label : String := ""
  fsentry : String := ""
  status : String := BASEBACKUP_STATUS_IN_PROGRESS
deriving DecidableEq, Repr

/-- A tablespace-of-backup descriptor, from `BackupTablespaceDescr`. -/
structure BackupTablespaceDescr where
  id : Int := -1
  backup_id : Int := -1
  spcoid : Nat := 0
deriving DecidableEq, Repr

/-- A persisted archive row (the columns of `descr.hxx` and `catalog.hxx` the
command layer reads back). -/
structure ArchiveRow where
  id : Int := -1
  archive_name : String := ""
  directory : String := ""
  compression : Bool := false
deriving DecidableEq, Repr

/-- The catalog descriptor populated by the parser and copied into each
command object by `BaseCatalogCommand::copy`, restricted to the fields the
translated commands read. -/
structure CatalogDescr where
  id : Int := -1
  archive_name : String := ""
  label : String := ""
  compression : Bool := false
  directory : String := ""
  coninfo : ConnectionDescr := {}
  backup_profile : BackupProfileDescr := {}
  affectedAttributes : List Nat := []
deriving DecidableEq, Repr

/-- The catalog database: one list per relation plus surrogate-id counters.
Modelled from the spec: the store owns the persistent rows of archives,
connections, backup profiles, base backups and tablespaces (section 3). -/
structure DB where
  archives : List ArchiveRow := []
  connections : List ConnectionDescr := []
  profiles : List BackupProfileDescr := []
  backups : List BaseBackupDescr := []
  tablespaces : List BackupTablespaceDescr := []
  nextArchiveId : Int := 0
  nextProfileId : Int := 0
  nextBackupId : Int := 0
deriving DecidableEq, Repr

/-- Column identifiers of the archive relation, from `catalog.hxx`. -/
def SQL_ARCHIVE_ID_ATTNO : Nat := 0

/-- Archive name column identifier, from `catalog.hxx`. -/
def SQL_ARCHIVE_NAME_ATTNO : Nat := 1

/-- Archive directory column identifier, from `catalog.hxx`. -/
def SQL_ARCHIVE_DIRECTORY_ATTNO : Nat := 2

/-- Archive compression column identifier, from `catalog.hxx`. -/
def SQL_ARCHIVE_COMPRESSION_ATTNO : Nat := 3

/-- Modelled from the spec: connection column identifier `archive_id`; the
numeric values of the `SQL_CON_*_ATTNO` constants are not in the provided
sources, only their distinctness matters. -/
def SQL_CON_ARCHIVE_ID_ATTNO : Nat := 0

/-- Modelled from the spec: connection column identifier `type`. -/
def SQL_CON_TYPE_ATTNO : Nat := 1

/-- Modelled from the spec: connection column identifier `dsn`. -/
def SQL_CON_DSN_ATTNO : Nat := 2

/-- Modelled from the spec: connection column identifier `pghost`. -/
def SQL_CON_PGHOST_ATTNO : Nat := 3

/-- Modelled from the spec: connection column identifier `pgport`. -/
def SQL_CON_PGPORT_ATTNO : Nat := 4

/-- Modelled from the spec: connection column identifier `pguser`. -/
def SQL_CON_PGUSER_ATTNO : Nat := 5

/-- Modelled from the spec: connection column identifier `pgdatabase`. -/
def SQL_CON_PGDATABASE_ATTNO : Nat := 6

/-- Modelled from the spec: backup profile column identifier `name`; the
numeric values of the `SQL_BCK_PROF_*_ATTNO` constants are not in the
provided sources, only their distinctness matters. -/
def SQL_BCK_PROF_NAME_ATTNO : Nat := 0

/-- Modelled from the spec: profile column identifier `compress_type`. -/
def SQL_BCK_PROF_COMPRESS_TYPE_ATTNO : Nat := 1

/-- Modelled from the spec: profile column identifier `max_rate`. -/
def SQL_BCK_PROF_MAX_RATE_ATTNO : Nat := 2

/-- Modelled from the spec: profile column identifier `label`. -/
def SQL_BCK_PROF_LABEL_ATTNO : Nat := 3

/-- Modelled from the spec: profile column identifier `fast_checkpoint`. -/
def SQL_BCK_PROF_FAST_CHKPT_ATTNO : Nat := 4

/-- Modelled from the spec: profile column identifier `include_wal`. -/
def SQL_BCK_PROF_INCL_WAL_ATTNO : Nat := 5

/-- Modelled from the spec: profile column identifier `wait_for_wal`. -/
def SQL_BCK_PROF_WAIT_FOR_WAL_ATTNO : Nat := 6

/-- Modelled from the spec: profile column identifier `noverify_checksums`. -/
def SQL_BCK_PROF_NOVERIFY_CHECKSUMS_ATTNO : Nat := 7

/-- Failure sites of external collaborators and store calls; used to give
each injected failure a distinct identity. -/
inductive Site
  | getConn
  | getProfile
  | connect
  | identify
  | basebackupHandle
  | streamStart
  | initDir
  | create
  | register
  | readTsInfo
  | tsRegister
  | tsBackup
  | streamEnd
  | disconnect
  | finalize
  | abortStartTx
  | abortBB
  | abortCommit
  | verify
  | list
deriving DecidableEq, Repr

/-- The error hierarchy raised by the command layer (`CArchiveIssue`,
`CCatalogIssue`); each constructor corresponds to one `throw` site of the
translated code, carrying the user keys its message names.  Failures of
external collaborators are `external` with their site. -/
inductive Err
  | archiveMissing (name : String)
  | archiveExists (directory : String)
  | alterArchiveMissing (name : String)
  | dropArchiveMissing (name : String)
  | connTypeMissing (name : String) (type : String)
  | duplicateConn (name : String)
  | profileNotExists (name : String)
  | defaultProfileNotFound
  | profileExists (name : String)
  | dropProfileMissing (name : String)
  | statArchiveMissing (name : String)
  | verifyArchiveMissing (name : String)
  | external (site : Site)
deriving DecidableEq, Repr

/-- The user-visible message of an error, transcribed from the `ostringstream`
text at the corresponding `throw` site of the source. -/
def Err.message : Err → String
  | .archiveMissing name => "archive \"" ++ name ++ "\" does not exist"
  | .archiveExists directory => "archive already exists: \"" ++ directory ++ "\""
  | .alterArchiveMissing name =>
      "could not alter archive: archive name \"" ++ name ++ "\" does not exists"
  | .dropArchiveMissing name =>
      "specified archive name \"" ++ name ++ "\" does not exists"
  | .connTypeMissing name type =>
      "archive \"" ++ name ++ "\" does not have a connection of type \"" ++ type ++ "\""
  | .duplicateConn name =>
      "archive \"" ++ name ++ "\" already has a connection of this type configured"
  | .profileNotExists name => "backup profile \"" ++ name ++ "\" does not exist"
  | .defaultProfileNotFound =>
      "\"default\" profile not found: please check your backup catalog or create a new one"
  | .profileExists name => "backup profile " ++ name ++ " already exists"
  | .dropProfileMissing name => "backup profile \"" ++ name ++ "\""
  | .statArchiveMissing name =>
      "cannot stat catalog: archive\"" ++ name ++ "\" does not exist"
  | .verifyArchiveMissing name => "archive " ++ name ++ " does not exist"
  | .external _ => "external failure"

/-- The calls a command issues against the store and its collaborators, in
order; the transaction events let us talk about commit/rollback behaviour. -/
inductive Event
  | txStart
  | txCommit
  | txRollback
  | close
  | createArchiveEv (name : String)
  | dropArchiveEv (name : String)
  | updateArchiveEv (id : Int)
  | createConnEv (archive_id : Int) (type : String)
  | dropConnEv (name : String) (type : String)
  | insertProfileEv (attrs : List Nat)
  | dropProfileEv (name : String)
  | registerBBEv (id : Int)
  | abortBBEv (id : Int)
  | finalizeBBEv (id : Int)
  | registerTsEv (backup_id : Int)
  | connectEv
  | identifyEv
  | streamEndEv
  | disconnectEv
deriving DecidableEq, Repr

/-- Execution state of a command: the catalog database, the snapshot held by
an open transaction, the trace of issued calls, and the ghost list of errors
raised at their origin site (in order). -/
structure St where
  db : DB
  snap : Option DB := none
  trace : List Event := []
  raised : List Err := []
deriving DecidableEq, Repr

/-- Modelled from the spec: `start_transaction` of the store (section 4.B);
embedded as taking a snapshot of the database for a later rollback. -/
def startTransaction (s : St) : St :=
  { s with snap := some s.db, trace := s.trace ++ [Event.txStart] }

/-- Modelled from the spec: `commit` of the store; the snapshot is dropped. -/
def commitTransaction (s : St) : St :=
  { s with snap := none, trace := s.trace ++ [Event.txCommit] }

/-- Modelled from the spec: `rollback` of the store; restores the snapshot.
A rollback issued while no transaction is in progress is modelled as issuing
the call with nothing to restore. -/
def rollbackTransaction (s : St) : St :=
  { s with db := s.snap.getD s.db, snap := none, trace := s.trace ++ [Event.txRollback] }

/-- Record a store/collaborator call in the trace. -/
def emit (ev : Event) (s : St) : St :=
  { s with trace := s.trace ++ [ev] }

/-- Ghost bookkeeping: record an error at the site where it is first thrown. -/
def raiseErr (e : Err) (s : St) : St :=
  { s with raised := s.raised ++ [e] }

/-- Modelled from the spec: `exists_by_name(name)` returns a descriptor with
`id = -1` if absent (sentinel pattern, section 4.B). -/
def existsByName (db : DB) (archive_name : String) : CatalogDescr :=
  match db.archives.find? (fun a => a.archive_name == archive_name) with
  | some a =>
      { id := a.id, archive_name := a.archive_name,
        directory := a.directory, compression := a.compression }
  | none => { id := -1 }

/-- Modelled from the spec: `exists(directory)` returns a descriptor with
`id = -1` if absent. -/
def existsDir (db : DB) (directory : String) : CatalogDescr :=
  match db.archives.find? (fun a => a.directory == directory) with
  | some a =>
      { id := a.id, archive_name := a.archive_name,
        directory := a.directory, compression := a.compression }
  | none => { id := -1 }

/-- Modelled from the spec: `get_catalog_connection(conn_out, archive_id,
type)` fills the provided descriptor from the matching row and sets
`archive_id = -1` if no row exists. -/
def getCatalogConnection (db : DB) (con : ConnectionDescr) (archive_id : Int)
    (type : String) : ConnectionDescr :=
  match db.connections.find? (fun c => c.archive_id == archive_id && c.type == type) with
  | some r => { r with affectedAttributes := con.affectedAttributes }
  | none => { con with archive_id := -1 }

/-- Modelled from the spec: `create_catalog_connection(conn)` inserts the
connection row. -/
def createCatalogConnection (db : DB) (con : ConnectionDescr) : DB :=
  { db with connections := db.connections ++ [con] }

/-- Modelled from the spec: `drop_catalog_connection(archive_name, type)`
deletes the connection of that type belonging to the named archive. -/
def dropCatalogConnection (db : DB) (archive_name : String) (type : String) : DB :=
  match db.archives.find? (fun a => a.archive_name == archive_name) with
  | some a =>
      { db with connections :=
          db.connections.filter (fun c => !(c.archive_id == a.id && c.type == type)) }
  | none => db

/-- Modelled from the spec: `get_backup_profile(name)` returns the stored
descriptor, or a default-initialized one with `profile_id = -1` if the name
is absent (sentinel pattern). -/
def getBackupProfile (db : DB) (name : String) : BackupProfileDescr :=
  match db.profiles.find? (fun p => p.name == name) with
  | some p => p
  | none => {}

/-- Modelled from the spec: `create_backup_profile(descr)` performs a partial
INSERT driven by the descriptor's affected-attribute set: a column outside
the set keeps the default of a fresh `BackupProfileDescr` (section 4.A). -/
def createBackupProfileStore (db : DB) (p : BackupProfileDescr) : DB :=
  let d : BackupProfileDescr := {}
  let row : BackupProfileDescr :=
    { profile_id := db.nextProfileId,
      name := if SQL_BCK_PROF_NAME_ATTNO ∈ p.affectedAttributes then p.name else d.name,
      compress_type :=
        if SQL_BCK_PROF_COMPRESS_TYPE_ATTNO ∈ p.affectedAttributes then
          p.compress_type else d.compress_type,
      max_rate := if SQL_BCK_PROF_MAX_RATE_ATTNO ∈ p.affectedAttributes then
          p.max_rate else d.max_rate,
      label := if SQL_BCK_PROF_LABEL_ATTNO ∈ p.affectedAttributes then p.label else d.label,
      fast_checkpoint := if SQL_BCK_PROF_FAST_CHKPT_ATTNO ∈ p.affectedAttributes then
          p.fast_checkpoint else d.fast_checkpoint,
      include_wal := if SQL_BCK_PROF_INCL_WAL_ATTNO ∈ p.affectedAttributes then
          p.include_wal else d.include_wal,
      wait_for_wal := if SQL_BCK_PROF_WAIT_FOR_WAL_ATTNO ∈ p.affectedAttributes then
          p.wait_for_wal else d.wait_for_wal,
      noverify_checksums :=
        if SQL_BCK_PROF_NOVERIFY_CHECKSUMS_ATTNO ∈ p.affectedAttributes then
          p.noverify_checksums else d.noverify_checksums,
      affectedAttributes := p.affectedAttributes }
  { db with profiles := db.profiles ++ [row], nextProfileId := db.nextProfileId + 1 }

/-- Modelled from the spec: `drop_backup_profile(name)` deletes the row. -/
def dropBackupProfileStore (db : DB) (name : String) : DB :=
  { db with profiles := db.profiles.filter (fun p => !(p.name == name)) }

/-- Modelled from the spec: `create_archive(descr)` assigns the surrogate id
and inserts the archive row. -/
def createArchiveStore (db : DB) (cmd : CatalogDescr) : DB × Int :=
  let aid := db.nextArchiveId
  ({ db with
      archives := db.archives ++
        [{ id := aid, archive_name := cmd.archive_name,
           directory := cmd.directory, compression := cmd.compression }],
      nextArchiveId := aid + 1 }, aid)

/-- Modelled from the spec: `update_archive_attributes(descr, attrs)` updates
only the columns listed in `attrs` of the row identified by `descr.id`. -/
def updateArchiveAttributes (db : DB) (cmd : CatalogDescr) (attrs : List Nat) : DB :=
  { db with archives := db.archives.map (fun a =>
      if a.id == cmd.id then
        { a with
          archive_name := if SQL_ARCHIVE_NAME_ATTNO ∈ attrs then cmd.archive_name
            else a.archive_name,
          directory := if SQL_ARCHIVE_DIRECTORY_ATTNO ∈ attrs then cmd.directory
            else a.directory,
          compression := if SQL_ARCHIVE_COMPRESSION_ATTNO ∈ attrs then cmd.compression
            else a.compression }
      else a) }

/-- Modelled from the spec: `drop_archive(name)` cascades over connections
and base backups of the archive; deleting an absent name deletes nothing. -/
def dropArchiveStore (db : DB) (name : String) : DB :=
  match db.archives.find? (fun a => a.archive_name == name) with
  | some a =>
      { db with
          archives := db.archives.filter (fun x => !(x.archive_name == name)),
          connections := db.connections.filter (fun c => !(c.archive_id == a.id)),
          backups := db.backups.filter (fun b => !(b.archive_id == a.id)) }
  | none => db

/-- Modelled from the spec: `register_basebackup(archive_id, descr)` assigns
the surrogate id and persists the row with status `in progress`. -/
def registerBasebackup (db : DB) (d : BaseBackupDescr) : DB × BaseBackupDescr :=
  let nb : BaseBackupDescr :=
    { d with id := db.nextBackupId, status := BASEBACKUP_STATUS_IN_PROGRESS }
  ({ db with backups := nb :: db.backups, nextBackupId := db.nextBackupId + 1 }, nb)

/-- Modelled from the spec: set the status column of the backup row. -/
def setBackupStatus (db : DB) (bid : Int) (status : String) : DB :=
  { db with backups := db.backups.map (fun b =>
      if b.id == bid then { b with status := status } else b) }

/-- Modelled from the spec: `abort_basebackup(descr)` sets status `aborted`. -/
def abortBasebackup (db : DB) (d : BaseBackupDescr) : DB :=
  setBackupStatus db d.id BASEBACKUP_STATUS_ABORTED

/-- Modelled from the spec: `finalize_basebackup(descr)` sets status
`ready`. -/
def finalizeBasebackup (db : DB) (d : BaseBackupDescr) : DB :=
  setBackupStatus db d.id BASEBACKUP_STATUS_READY

/-- Modelled from the spec: `register_tablespace_for_backup(descr)` inserts
the tablespace row. -/
def registerTablespaceForBackup (db : DB) (ts : BackupTablespaceDescr) : DB :=
  { db with tablespaces := db.tablespaces ++ [ts] }

/-- Outcome of one tablespace iteration of the streaming loop, used to drive
the translated loop of `StartBasebackupCatalogCommand::execute`: the stream
produces a tablespace and both catalog registration and payload streaming
succeed, or one of the two calls throws. -/
inductive TsStep
  | tsOk (spcoid : Nat)
  | tsRegisterFail
  | tsBackupFail
deriving DecidableEq, Repr

/-- Failure injection for the external collaborators and fallible store
calls, one flag per call site of the translated code; `tablespaces` is the
sequence of tablespace iterations the stream produces. -/
structure Env where
  getConnFail : Bool := false
  getProfileFail : Bool := false
  connectFail : Bool := false
  identifyFail : Bool := false
  basebackupFail : Bool := false
  startFail : Bool := false
  initFail : Bool := false
  createFail : Bool := false
  registerFail : Bool := false
  readTsFail : Bool := false
  tablespaces : List TsStep := []
  endFail : Bool := false
  disconnectFail : Bool := false
  finalizeFail : Bool := false
  abortStartTxFail : Bool := false
  abortFail : Bool := false
  abortCommitFail : Bool := false
  verifyFail : Bool := false
  listFail : Bool := false
deriving DecidableEq, Repr

/-- Translation of `DropConnectionCatalogCommand::execute`: resolve the archive, look the
connection up by type, reject if absent, delete it; rollback and re-raise on
failure, commit after the protected block. -/
def dropConnectionCommand (cmd : CatalogDescr) (_flag : Bool) (_env : Env)
    (db : DB) : St × Except Err Unit :=
  let s : St := { db := db }
  let s := startTransaction s
  let tempDescr := existsByName s.db cmd.archive_name
  if tempDescr.id ≥ 0 then
    let coninfo := { cmd.coninfo with
      affectedAttributes := cmd.coninfo.affectedAttributes ++ [SQL_CON_ARCHIVE_ID_ATTNO] }
    let contype := cmd.coninfo.type
    let coninfo := getCatalogConnection s.db coninfo tempDescr.id coninfo.type
    if coninfo.archive_id < 0 then
      let e := Err.connTypeMissing cmd.archive_name contype
      let s := raiseErr e s
      let s := rollbackTransaction s
      (s, Except.error e)
    else
      let s := emit (Event.dropConnEv cmd.archive_name coninfo.type) s
      let s := { s with db := dropCatalogConnection s.db cmd.archive_name coninfo.type }
      let s := commitTransaction s
      (s, Except.ok ())
  else
    let e := Err.archiveMissing cmd.archive_name
    let s := raiseErr e s
    let s := rollbackTransaction s
    (s, Except.error e)

/-- Translation of `ListConnectionCatalogCommand::execute`: resolve the archive and
enumerate its connections (output is not modelled); rollback and re-raise on
failure, commit after the protected block. -/
def listConnectionCommand (cmd : CatalogDescr) (_flag : Bool) (_env : Env)
    (db : DB) : St × Except Err Unit :=
  let s : St := { db := db }
  let s := startTransaction s
  let tempDescr := existsByName s.db cmd.archive_name
  if tempDescr.id ≥ 0 then
    let s := commitTransaction s
    (s, Except.ok ())
  else
    let e := Err.archiveMissing cmd.archive_name
    let s := raiseErr e s
    let s := rollbackTransaction s
    (s, Except.error e)

/-- Translation of `CreateConnectionCatalogCommand::execute`: resolve the archive, check for
a colliding connection type, insert the new connection and commit inside the
protected block; rollback and re-raise on failure.  The duplicate check
requires the found row's type to differ from `CONNECTION_TYPE_UNKNOWN`. -/
def createConnectionCommand (cmd : CatalogDescr) (_flag : Bool) (_env : Env)
    (db : DB) : St × Except Err Unit :=
  let s : St := { db := db }
  let s := startTransaction s
  let tempArchiveDescr := existsByName s.db cmd.archive_name
  if tempArchiveDescr.id < 0 then
    let e := Err.archiveMissing cmd.archive_name
    let s := raiseErr e s
    let s := rollbackTransaction s
    (s, Except.error e)
  else
    let tempConDescr : ConnectionDescr :=
      { affectedAttributes := [SQL_CON_ARCHIVE_ID_ATTNO, SQL_CON_TYPE_ATTNO] }
    let tempConDescr :=
      getCatalogConnection s.db tempConDescr tempArchiveDescr.id cmd.coninfo.type
    if tempConDescr.archive_id ≥ 0 ∧ tempConDescr.type ≠ CONNECTION_TYPE_UNKNOWN then
      let e := Err.duplicateConn cmd.archive_name
      let s := raiseErr e s
      let s := rollbackTransaction s
      (s, Except.error e)
    else
      let s := emit (Event.createConnEv tempArchiveDescr.id cmd.coninfo.type) s
      let newCon := { cmd.coninfo with archive_id := tempArchiveDescr.id }
      let s := { s with db := createCatalogConnection s.db newCon }
      let s := commitTransaction s
      (s, Except.ok ())

/-- Translation of `ListBackupCatalogCommand::execute`: resolve the archive, stat the
catalog (output is not modelled), commit; rollback and re-raise on
failure. -/
def listBackupCatalogCommand (cmd : CatalogDescr) (_flag : Bool) (_env : Env)
    (db : DB) : St × Except Err Unit :=
  let s : St := { db := db }
  let s := startTransaction s
  let temp_descr := existsByName s.db cmd.archive_name
  if temp_descr.id < 0 then
    let e := Err.statArchiveMissing cmd.archive_name
    let s := raiseErr e s
    let s := rollbackTransaction s
    (s, Except.error e)
  else
    let s := commitTransaction s
    (s, Except.ok ())

/-- Translation of `DropBackupProfileCatalogCommand::execute`: look the profile up by name,
error out through the sentinel if absent, delete it and commit; rollback and
re-raise on failure. -/
def dropBackupProfileCommand (cmd : CatalogDescr) (_flag : Bool) (_env : Env)
    (db : DB) : St × Except Err Unit :=
  let s : St := { db := db }
  let s := startTransaction s
  let temp_descr := getBackupProfile s.db cmd.backup_profile.name
  if temp_descr.profile_id < 0 then
    let e := Err.dropProfileMissing cmd.backup_profile.name
    let s := raiseErr e s
    let s := rollbackTransaction s
    (s, Except.error e)
  else
    let s := emit (Event.dropProfileEv cmd.backup_profile.name) s
    let s := { s with db := dropBackupProfileStore s.db cmd.backup_profile.name }
    let s := commitTransaction s
    (s, Except.ok ())

/-- The MAX RATE line of the detail view of
`ListBackupProfileCatalogCommand::execute`, translated verbatim: the
property name and the printed setting. -/
def maxRateDisplay (profile : BackupProfileDescr) : String × String :=
  if profile.max_rate > 0 then ("MAX RATE", "NOT RATED")
  else ("MAX RATE(kbps)", toString profile.max_rate)

/-- Translation of `ListBackupProfileCatalogCommand::execute`: enumerate the profiles or
show the details of one (the printed lines, including `maxRateDisplay`, are
not part of the state); commit; rollback and re-raise on failure. -/
def listBackupProfileCommand (_detail : Bool) (_cmd : CatalogDescr) (_env : Env)
    (db : DB) : St × Except Err Unit :=
  let s : St := { db := db }
  let s := startTransaction s
  let s := commitTransaction s
  (s, Except.ok ())

/-- The exact affected-attribute set
`CreateBackupProfileCatalogCommand::execute` passes to the store when
inserting a new profile. -/
def requiredProfileAttrs : List Nat :=
  [SQL_BCK_PROF_NAME_ATTNO, SQL_BCK_PROF_COMPRESS_TYPE_ATTNO,
   SQL_BCK_PROF_MAX_RATE_ATTNO, SQL_BCK_PROF_LABEL_ATTNO,
   SQL_BCK_PROF_FAST_CHKPT_ATTNO, SQL_BCK_PROF_INCL_WAL_ATTNO,
   SQL_BCK_PROF_WAIT_FOR_WAL_ATTNO]

/-- Translation of `CreateBackupProfileCatalogCommand::execute(existsOk)`: if the sentinel
lookup reports the profile absent, set the affected-attribute set to the full
required list and insert; otherwise a no-op when `existsOk`, an error
otherwise; commit on success, rollback and re-raise on failure. -/
def createBackupProfileCommand (cmd : CatalogDescr) (existsOk : Bool) (_env : Env)
    (db : DB) : St × Except Err Unit :=
  let s : St := { db := db }
  let s := startTransaction s
  let temp_descr := getBackupProfile s.db cmd.backup_profile.name
  if temp_descr.profile_id < 0 then
    let p := { cmd.backup_profile with affectedAttributes := requiredProfileAttrs }
    let s := emit (Event.insertProfileEv requiredProfileAttrs) s
    let s := { s with db := createBackupProfileStore s.db p }
    let s := commitTransaction s
    (s, Except.ok ())
  else
    if !existsOk then
      let e := Err.profileExists cmd.backup_profile.name
      let s := raiseErr e s
      let s := rollbackTransaction s
      (s, Except.error e)
    else
      let s := commitTransaction s
      (s, Except.ok ())

/-- Translation of `VerifyArchiveCatalogCommand::execute`: resolve the archive, verify the
archive directory on disk (a collaborator that may throw), commit; rollback
and re-raise on failure. -/
def verifyArchiveCommand (cmd : CatalogDescr) (_flag : Bool) (env : Env)
    (db : DB) : St × Except Err Unit :=
  let s : St := { db := db }
  let s := startTransaction s
  let temp_descr := existsByName s.db cmd.archive_name
  if temp_descr.id < 0 then
    let e := Err.verifyArchiveMissing cmd.archive_name
    let s := raiseErr e s
    let s := rollbackTransaction s
    (s, Except.error e)
  else
    if env.verifyFail then
      let e := Err.external Site.verify
      let s := raiseErr e s
      let s := rollbackTransaction s
      (s, Except.error e)
    else
      let s := commitTransaction s
      (s, Except.ok ())

/-- Output modes of `ListArchiveCatalogCommand`, from `commands.hxx`. -/
inductive ListArchiveOutputMode
  | archiveList
  | archiveFilteredList
  | archiveDetailList
deriving DecidableEq, Repr

/-- Translation of `ListArchiveCatalogCommand::execute`: start a transaction and enumerate
the archives in the requested mode; on failure rollback and re-raise.  On
success the source never commits: it leaves the protected block and calls
`close()` on the catalog. -/
def listArchiveCommand (_mode : ListArchiveOutputMode) (_cmd : CatalogDescr)
    (env : Env) (db : DB) : St × Except Err Unit :=
  let s : St := { db := db }
  let s := startTransaction s
  if env.listFail then
    let e := Err.external Site.list
    let s := raiseErr e s
    let s := rollbackTransaction s
    (s, Except.error e)
  else
    let s := emit Event.close s
    (s, Except.ok ())

/-- Translation of `AlterArchiveCatalogCommand::execute(ignoreMissing)`: resolve by name and
update the affected attributes; a missing archive fails unless
`ignoreMissing`; commit on success, rollback and re-raise on failure. -/
def alterArchiveCommand (cmd : CatalogDescr) (ignoreMissing : Bool) (_env : Env)
    (db : DB) : St × Except Err Unit :=
  let s : St := { db := db }
  let s := startTransaction s
  let temp_descr := existsByName s.db cmd.archive_name
  if temp_descr.id ≥ 0 then
    let s := emit (Event.updateArchiveEv temp_descr.id) s
    let s := { s with db :=
      updateArchiveAttributes s.db { cmd with id := temp_descr.id } cmd.affectedAttributes }
    let s := commitTransaction s
    (s, Except.ok ())
  else
    if !ignoreMissing then
      let e := Err.alterArchiveMissing cmd.archive_name
      let s := raiseErr e s
      let s := rollbackTransaction s
      (s, Except.error e)
    else
      let s := commitTransaction s
      (s, Except.ok ())

/-- Translation of `DropArchiveCatalogCommand::execute(existsOk)`: check existence by name;
an existing archive is dropped inside the branch, a missing one fails unless
`existsOk`; afterwards the source calls `dropArchive` once more,
unconditionally, before committing.  Rollback and re-raise on failure. -/
def dropArchiveCommand (cmd : CatalogDescr) (existsOk : Bool) (_env : Env)
    (db : DB) : St × Except Err Unit :=
  let s : St := { db := db }
  let s := startTransaction s
  let temp_descr := existsByName s.db cmd.archive_name
  if temp_descr.id ≥ 0 then
    let s := emit (Event.dropArchiveEv cmd.archive_name) s
    let s := { s with db := dropArchiveStore s.db cmd.archive_name }
    let s := emit (Event.dropArchiveEv cmd.archive_name) s
    let s := { s with db := dropArchiveStore s.db cmd.archive_name }
    let s := commitTransaction s
    (s, Except.ok ())
  else
    if !existsOk then
      let e := Err.dropArchiveMissing cmd.archive_name
      let s := raiseErr e s
      let s := rollbackTransaction s
      (s, Except.error e)
    else
      let s := emit (Event.dropArchiveEv cmd.archive_name) s
      let s := { s with db := dropArchiveStore s.db cmd.archive_name }
      let s := commitTransaction s
      (s, Except.ok ())

/-- Translation of `CreateArchiveCatalogCommand::execute(existsOk)`: if the directory lookup
reports a new archive, insert it and create its `basebackup` connection from
the descriptor's connection info, then commit; an existing archive fails
unless `existsOk`, in which case its affected attributes are updated (the
source opens a second, nested transaction there).  Rollback and re-raise on
failure. -/
def createArchiveCommand (cmd : CatalogDescr) (existsOk : Bool) (_env : Env)
    (db : DB) : St × Except Err Unit :=
  let s : St := { db := db }
  let s := startTransaction s
  let temp_descr := existsDir s.db cmd.directory
  if temp_descr.id < 0 then
    let (db2, aid) := createArchiveStore s.db cmd
    let s := emit (Event.createArchiveEv cmd.archive_name) { s with db := db2 }
    let conn := { cmd.coninfo with
      archive_id := aid, type := CONNECTION_TYPE_BASEBACKUP }
    let s := emit (Event.createConnEv aid CONNECTION_TYPE_BASEBACKUP) s
    let s := { s with db := createCatalogConnection s.db conn }
    let s := commitTransaction s
    (s, Except.ok ())
  else
    if !existsOk then
      let e := Err.archiveExists cmd.directory
      let s := raiseErr e s
      let s := rollbackTransaction s
      (s, Except.error e)
    else
      let s := startTransaction s
      let s := emit (Event.updateArchiveEv temp_descr.id) s
      let s := { s with db :=
        updateArchiveAttributes s.db { cmd with id := temp_descr.id } cmd.affectedAttributes }
      let s := commitTransaction s
      (s, Except.ok ())

/-- Result of the streaming try block of
`StartBasebackupCatalogCommand::execute`: normal completion carrying the
basebackup descriptor, or a thrown error together with the value of the
`basebackup_registered` flag at that point and the descriptor handle. -/
inductive StreamOutcome
  | sOk (bb : BaseBackupDescr)
  | sFail (e : Err) (registered : Bool) (bb : BaseBackupDescr)
deriving DecidableEq, Repr

/-- The tablespace streaming loop of
`StartBasebackupCatalogCommand::execute`: for each tablespace the stream
produces, record its backup id, register it in the catalog (outside any
transaction, as in the source) and stream its payload; the first throwing
call ends the loop with that error. -/
def tsLoop (steps : List TsStep) (bb : BaseBackupDescr) (s : St) : St × Option Err :=
  match steps with
  | [] => (s, none)
  | step :: rest =>
    match step with
    | TsStep.tsOk spcoid =>
        let s := emit (Event.registerTsEv bb.id) s
        let s := { s with db :=
          registerTablespaceForBackup s.db { backup_id := bb.id, spcoid := spcoid } }
        tsLoop rest bb s
    | TsStep.tsRegisterFail =>
        (raiseErr (Err.external Site.tsRegister) s, some (Err.external Site.tsRegister))
    | TsStep.tsBackupFail =>
        let s := emit (Event.registerTsEv bb.id) s
        let s := { s with db :=
          registerTablespaceForBackup s.db { backup_id := bb.id, spcoid := 0 } }
        (raiseErr (Err.external Site.tsBackup) s, some (Err.external Site.tsBackup))

/-- The part of the streaming try block of
`StartBasebackupCatalogCommand::execute` that runs after the basebackup was
registered: read the tablespace list, run the streaming loop, end the stream
and disconnect; every error thrown here sees `basebackup_registered =
true`. -/
def streamBlockPost (env : Env) (bb : BaseBackupDescr) (s : St) : St × StreamOutcome :=
  if env.readTsFail then
    (raiseErr (Err.external Site.readTsInfo) s,
     StreamOutcome.sFail (Err.external Site.readTsInfo) true bb)
  else
  match tsLoop env.tablespaces bb s with
  | (s, some e) => (s, StreamOutcome.sFail e true bb)
  | (s, none) =>
    if env.endFail then
      (raiseErr (Err.external Site.streamEnd) s,
       StreamOutcome.sFail (Err.external Site.streamEnd) true bb)
    else
    let s := emit Event.streamEndEv s
    if env.disconnectFail then
      (raiseErr (Err.external Site.disconnect) s,
       StreamOutcome.sFail (Err.external Site.disconnect) true bb)
    else
    (emit Event.disconnectEv s, StreamOutcome.sOk bb)

/-- The streaming try block of `StartBasebackupCatalogCommand::execute`:
connect, identify, obtain and start the basebackup stream handle, register
the basebackup in its own transaction (rolling that transaction back if the
inner block throws), then continue with `streamBlockPost`.
`basebackup_registered` is set only after the registering transaction
committed. -/
def streamBlock (cmd : CatalogDescr) (env : Env) (temp : CatalogDescr)
    (s : St) : St × StreamOutcome :=
  if env.connectFail then
    (raiseErr (Err.external Site.connect) s,
     StreamOutcome.sFail (Err.external Site.connect) false {})
  else
  let s := emit Event.connectEv s
  if env.identifyFail then
    (raiseErr (Err.external Site.identify) s,
     StreamOutcome.sFail (Err.external Site.identify) false {})
  else
  let s := emit Event.identifyEv s
  if env.basebackupFail then
    (raiseErr (Err.external Site.basebackupHandle) s,
     StreamOutcome.sFail (Err.external Site.basebackupHandle) false {})
  else
  if env.startFail then
    (raiseErr (Err.external Site.streamStart) s,
     StreamOutcome.sFail (Err.external Site.streamStart) false {})
  else
  let s := startTransaction s
  if env.initFail then
    let s := raiseErr (Err.external Site.initDir) s
    let s := rollbackTransaction s
    (s, StreamOutcome.sFail (Err.external Site.initDir) false {})
  else
  if env.createFail then
    let s := raiseErr (Err.external Site.create) s
    let s := rollbackTransaction s
    (s, StreamOutcome.sFail (Err.external Site.create) false {})
  else
  if env.registerFail then
    let s := raiseErr (Err.external Site.register) s
    let s := rollbackTransaction s
    (s, StreamOutcome.sFail (Err.external Site.register) false {})
  else
  let descr0 : BaseBackupDescr :=
    { archive_id := temp.id, label := cmd.backup_profile.label }
  let reg := registerBasebackup s.db descr0
  let bb := reg.2
  let s := emit (Event.registerBBEv bb.id) { s with db := reg.1 }
  let s := commitTransaction s
  streamBlockPost env bb s

/-- A run of `StartBasebackupCatalogCommand::execute` with the values of the
local `basebackup_registered` flag and of the basebackup descriptor handle
exposed as ghost observations. -/
structure BBRun where
  st : St
  result : Except Err Unit
  registered : Bool
  backup : BaseBackupDescr
deriving Repr

/-- The tail of `StartBasebackupCatalogCommand::execute` after profile
resolution: run the streaming try block; on normal completion finalize the
basebackup in a fresh transaction (rollback and re-raise if that throws); on
a thrown error run the compensation: iff the basebackup was registered, open
a fresh transaction and call `abort_basebackup`, and if the compensation
itself throws, roll its transaction back (only if it was entered) and
discard the secondary error; the primary error is re-raised in every
case. -/
def bbStreamPhase (cmd : CatalogDescr) (env : Env) (temp : CatalogDescr)
    (s : St) : BBRun :=
  match streamBlock cmd env temp s with
  | (s, StreamOutcome.sOk bb) =>
      let s := startTransaction s
      if env.finalizeFail then
        let e := Err.external Site.finalize
        let s := raiseErr e s
        let s := rollbackTransaction s
        { st := s, result := Except.error e, registered := true, backup := bb }
      else
        let s := emit (Event.finalizeBBEv bb.id) s
        let s := { s with db := finalizeBasebackup s.db bb }
        let s := commitTransaction s
        { st := s, result := Except.ok (), registered := true, backup := bb }
  | (s, StreamOutcome.sFail e registered bb) =>
      if registered then
        if env.abortStartTxFail then
          let s := raiseErr (Err.external Site.abortStartTx) s
          { st := s, result := Except.error e, registered := true, backup := bb }
        else
          let s := startTransaction s
          if env.abortFail then
            let s := raiseErr (Err.external Site.abortBB) s
            let s := rollbackTransaction s
            { st := s, result := Except.error e, registered := true, backup := bb }
          else
            let s := emit (Event.abortBBEv bb.id) s
            let s := { s with db := abortBasebackup s.db bb }
            if env.abortCommitFail then
              let s := raiseErr (Err.external Site.abortCommit) s
              let s := rollbackTransaction s
              { st := s, result := Except.error e, registered := true, backup := bb }
            else
              let s := commitTransaction s
              { st := s, result := Except.error e, registered := true, backup := bb }
      else
        { st := s, result := Except.error e, registered := false, backup := bb }

/-- Translation of `StartBasebackupCatalogCommand::execute`: transaction 1 resolves the
archive by name and loads its `basebackup` connection, then commits; the
missing-archive error path issues a `rollbackTransaction` after that commit
and throws.  Transaction 2 resolves the requested profile, or `default` when
none was given, failing through the sentinel.  The rest is
`bbStreamPhase`. -/
def startBasebackupCommand (cmd : CatalogDescr) (env : Env) (db : DB) : BBRun :=
  let s : St := { db := db }
  let s := startTransaction s
  let temp0 := existsByName s.db cmd.archive_name
  if temp0.id ≥ 0 ∧ env.getConnFail then
    let e := Err.external Site.getConn
    let s := raiseErr e s
    let s := rollbackTransaction s
    { st := s, result := Except.error e, registered := false, backup := {} }
  else
    let temp :=
      if temp0.id ≥ 0 then
        let coninfo0 := { temp0.coninfo with affectedAttributes :=
          [SQL_CON_ARCHIVE_ID_ATTNO, SQL_CON_TYPE_ATTNO, SQL_CON_DSN_ATTNO,
           SQL_CON_PGHOST_ATTNO, SQL_CON_PGPORT_ATTNO, SQL_CON_PGUSER_ATTNO,
           SQL_CON_PGDATABASE_ATTNO] }
        { temp0 with coninfo :=
            getCatalogConnection s.db coninfo0 temp0.id CONNECTION_TYPE_BASEBACKUP }
      else temp0
    let s := commitTransaction s
    if temp.id < 0 then
      let e := Err.archiveMissing cmd.archive_name
      let s := rollbackTransaction s
      let s := raiseErr e s
      { st := s, result := Except.error e, registered := false, backup := {} }
    else
      if cmd.backup_profile.name ≠ "" then
        let s := startTransaction s
        if env.getProfileFail then
          let e := Err.external Site.getProfile
          let s := raiseErr e s
          let s := rollbackTransaction s
          { st := s, result := Except.error e, registered := false, backup := {} }
        else
          let backupProfile := getBackupProfile s.db cmd.backup_profile.name
          let s := commitTransaction s
          if backupProfile.profile_id < 0 then
            let e := Err.profileNotExists cmd.backup_profile.name
            let s := raiseErr e s
            { st := s, result := Except.error e, registered := false, backup := {} }
          else
            bbStreamPhase cmd env temp s
      else
        let s := startTransaction s
        if env.getProfileFail then
          let e := Err.external Site.getProfile
          let s := raiseErr e s
          let s := rollbackTransaction s
          { st := s, result := Except.error e, registered := false, backup := {} }
        else
          let backupProfile := getBackupProfile s.db "default"
          let s := commitTransaction s
          if backupProfile.profile_id < 0 then
            let e := Err.defaultProfileNotFound
            let s := raiseErr e s
            { st := s, result := Except.error e, registered := false, backup := {} }
          else
            bbStreamPhase cmd env temp s

/-- The catalog command objects translated in this development, tagged as in
`CatalogTag`. -/
inductive Cmd
  | dropConnection
  | listConnection
  | createConnection
  | listBackupCatalog
  | startBasebackup
  | dropBackupProfile
  | listBackupProfile (detail : Bool)
  | createBackupProfile
  | verifyArchive
  | listArchive (mode : ListArchiveOutputMode)
  | alterArchive
  | dropArchive
  | createArchive
deriving DecidableEq, Repr

/-- Dispatch a command object's `execute(flag)`. -/
def execCmd (c : Cmd) (cmd : CatalogDescr) (flag : Bool) (env : Env)
    (db : DB) : St × Except Err Unit :=
  match c with
  | Cmd.dropConnection => dropConnectionCommand cmd flag env db
  | Cmd.listConnection => listConnectionCommand cmd flag env db
  | Cmd.createConnection => createConnectionCommand cmd flag env db
  | Cmd.listBackupCatalog => listBackupCatalogCommand cmd flag env db
  | Cmd.startBasebackup =>
      let r := startBasebackupCommand cmd env db
      (r.st, r.result)
  | Cmd.dropBackupProfile => dropBackupProfileCommand cmd flag env db
  | Cmd.listBackupProfile detail => listBackupProfileCommand detail cmd env db
  | Cmd.createBackupProfile => createBackupProfileCommand cmd flag env db
  | Cmd.verifyArchive => verifyArchiveCommand cmd flag env db
  | Cmd.listArchive mode => listArchiveCommand mode cmd env db
  | Cmd.alterArchive => alterArchiveCommand cmd flag env db
  | Cmd.dropArchive => dropArchiveCommand cmd flag env db
  | Cmd.createArchive => createArchiveCommand cmd flag env db

/-- One step of the transaction tracker: is a transaction in progress after
the event, given whether one was in progress before it? -/
def txStep (b : Bool) (ev : Event) : Bool :=
  match ev with
  | Event.txStart => true
  | Event.txCommit => false
  | Event.txRollback => false
  | _ => b

/-- Whether a transaction is in progress after the trace, starting from `b`. -/
def txOpenFrom (b : Bool) (tr : List Event) : Bool :=
  tr.foldl txStep b

/-- Whether a transaction is in progress after the trace of a command (no
transaction is in progress when a command starts). -/
def txOpen (tr : List Event) : Bool :=
  txOpenFrom false tr

/-- Number of `abort_basebackup` calls recorded in a trace. -/
def abortEvCount (tr : List Event) : Nat :=
  (tr.filter (fun ev => match ev with | Event.abortBBEv _ => true | _ => false)).length

/-- Number of `dropArchive` store calls recorded in a trace. -/
def dropArchiveEvCount (tr : List Event) : Nat :=
  (tr.filter (fun ev => match ev with | Event.dropArchiveEv _ => true | _ => false)).length

/-- Number of commits recorded in a trace. -/
def commitEvCount (tr : List Event) : Nat :=
  (tr.filter (fun ev => ev == Event.txCommit)).length

/-- Number of stream interactions (connect, identify, end, disconnect)
recorded in a trace. -/
def streamEvCount (tr : List Event) : Nat :=
  (tr.filter (fun ev => match ev with
    | Event.connectEv => true
    | Event.identifyEv => true
    | Event.streamEndEv => true
    | Event.disconnectEv => true
    | _ => false)).length

/-- Whether the command result is normal completion. -/
def exceptOk (r : Except Err Unit) : Bool :=
  match r with
  | Except.ok _ => true
  | Except.error _ => false

/-- The catalog status of the backup registered during a
`start-basebackup` run, read back from the final database state. -/
def statusOf (r : BBRun) : Option String :=
  (r.st.db.backups.find? (fun b => b.id == r.backup.id)).map (fun b => b.status)

/-- Number of `basebackup`-typed connections of the given archive id. -/
def basebackupConnCount (db : DB) (aid : Int) : Nat :=
  (db.connections.filter (fun c =>
    c.archive_id == aid && c.type == CONNECTION_TYPE_BASEBACKUP)).length

/-- The connection invariant of the spec: every persisted archive has exactly
one `basebackup` connection. -/
def connInvariant (db : DB) : Prop :=
  ∀ a ∈ db.archives, basebackupConnCount db a.id = 1

theorem txOpenFrom_append (b : Bool) (t1 t2 : List Event) :
    txOpenFrom b (t1 ++ t2) = txOpenFrom (txOpenFrom b t1) t2 := by
  simp [txOpenFrom, List.foldl_append]

theorem if_bool_true {α : Sort u_1} {c : Bool} (h : c = true) (a b : α) :
    (if c = true then a else b) = a := by
  simp [h]

theorem if_bool_false {α : Sort u_1} {c : Bool} (h : c = false) (a b : α) :
    (if c = true then a else b) = b := by
  simp [h]

theorem tsLoop_spec (steps : List TsStep) (bb : BaseBackupDescr) (s : St) :
    ((tsLoop steps bb s).2 = none →
      (tsLoop steps bb s).1.raised = s.raised
      ∧ (tsLoop steps bb s).1.snap = s.snap
      ∧ (tsLoop steps bb s).1.db.backups = s.db.backups
      ∧ ∃ ext, (tsLoop steps bb s).1.trace = s.trace ++ ext ∧ ∀ b, txOpenFrom b ext = b)
    ∧ (∀ e, (tsLoop steps bb s).2 = some e →
      (tsLoop steps bb s).1.raised = s.raised ++ [e]
      ∧ (tsLoop steps bb s).1.snap = s.snap
      ∧ (tsLoop steps bb s).1.db.backups = s.db.backups
      ∧ ∃ ext, (tsLoop steps bb s).1.trace = s.trace ++ ext ∧ ∀ b, txOpenFrom b ext = b) := by
  induction steps generalizing s with
  | nil =>
      constructor
      · intro _
        exact ⟨rfl, rfl, rfl, [], by simp [tsLoop], fun b => rfl⟩
      · intro e he
        simp [tsLoop] at he
  | cons step rest ih =>
      cases step with
      | tsOk spcoid =>
          have h := ih (emit (Event.registerTsEv bb.id) s
            |> fun s0 => { s0 with db :=
              registerTablespaceForBackup s0.db { backup_id := bb.id, spcoid := spcoid } })
          constructor
          · intro hnone
            simp only [tsLoop] at hnone ⊢
            obtain ⟨h1, h2, h3, ext, h4, h5⟩ := h.1 hnone
            refine ⟨h1, h2, ?_, Event.registerTsEv bb.id :: ext, ?_, ?_⟩
            · simpa [emit, registerTablespaceForBackup] using h3
            · simpa [emit, registerTablespaceForBackup] using h4
            · intro b
              have := h5 b
              simp [txOpenFrom, txStep] at this ⊢
              exact this
          · intro e he
            simp only [tsLoop] at he ⊢
            obtain ⟨h1, h2, h3, ext, h4, h5⟩ := h.2 e he
            refine ⟨?_, h2, ?_, Event.registerTsEv bb.id :: ext, ?_, ?_⟩
            · simpa [emit, registerTablespaceForBackup] using h1
            · simpa [emit, registerTablespaceForBackup] using h3
            · simpa [emit, registerTablespaceForBackup] using h4
            · intro b
              have := h5 b
              simp [txOpenFrom, txStep] at this ⊢
              exact this
      | tsRegisterFail =>
          constructor
          · intro hnone
            simp [tsLoop] at hnone
          · intro e he
            simp only [tsLoop] at he ⊢
            cases he
            exact ⟨rfl, rfl, rfl, [], by simp [raiseErr], fun b => rfl⟩
      | tsBackupFail =>
          constructor
          · intro hnone
            simp [tsLoop] at hnone
          · intro e he
            simp only [tsLoop] at he ⊢
            cases he
            refine ⟨rfl, rfl, rfl, [Event.registerTsEv bb.id], ?_, ?_⟩
            · simp [raiseErr, emit, registerTablespaceForBackup]
            · intro b
              simp [txOpenFrom, txStep]

theorem streamBlockPost_spec (env : Env) (bb : BaseBackupDescr) (s : St)
    (hsnap : s.snap = none) (htx : txOpen s.trace = false) :
    (streamBlockPost env bb s).1.snap = none
    ∧ txOpen (streamBlockPost env bb s).1.trace = false
    ∧ (streamBlockPost env bb s).1.db.backups = s.db.backups
    ∧ (∀ bb2, (streamBlockPost env bb s).2 = StreamOutcome.sOk bb2 →
        bb2 = bb ∧ (streamBlockPost env bb s).1.raised = s.raised)
    ∧ (∀ e reg bb2, (streamBlockPost env bb s).2 = StreamOutcome.sFail e reg bb2 →
        reg = true ∧ bb2 = bb
        ∧ (streamBlockPost env bb s).1.raised = s.raised ++ [e]) := by
  by_cases h1 : env.readTsFail = true
  · simp only [streamBlockPost, if_bool_true h1]
    refine ⟨hsnap, by simpa [raiseErr] using htx, rfl, ?_, ?_⟩
    · intro bb2 h
      simp at h
    · intro e reg bb2 h
      injection h with he hreg hbb
      exact ⟨hreg.symm, hbb.symm, by simp [raiseErr, he]⟩
  · rw [Bool.not_eq_true] at h1
    simp only [streamBlockPost, if_bool_false h1]
    obtain ⟨hlnone, hlsome⟩ := tsLoop_spec env.tablespaces bb s
    rcases hts : tsLoop env.tablespaces bb s with ⟨s5, oe⟩
    rw [hts] at hlnone hlsome
    cases oe with
    | some e =>
        obtain ⟨r1, r2, r3, ext, r4, r5⟩ := hlsome e rfl
        simp only at r1 r2 r3 r4 ⊢
        refine ⟨by rw [r2, hsnap], ?_, r3, ?_, ?_⟩
        · rw [r4, txOpen, txOpenFrom_append, r5]
          exact htx
        · intro bb2 h
          simp at h
        · intro e2 reg bb2 h
          injection h with he hreg hbb
          exact ⟨hreg.symm, hbb.symm, by rw [r1, he]⟩
    | none =>
        obtain ⟨r1, r2, r3, ext, r4, r5⟩ := hlnone rfl
        simp only at r1 r2 r3 r4
        by_cases h2 : env.endFail = true
        · simp only [if_bool_true h2]
          refine ⟨by simp [raiseErr, r2, hsnap], ?_, by simpa [raiseErr] using r3, ?_, ?_⟩
          · simp only [raiseErr]
            rw [r4, txOpen, txOpenFrom_append, r5]
            exact htx
          · intro bb2 h
            simp at h
          · intro e2 reg bb2 h
            injection h with he hreg hbb
            exact ⟨hreg.symm, hbb.symm, by simp [raiseErr]; rw [r1, he]⟩
        · rw [Bool.not_eq_true] at h2
          simp only [if_bool_false h2]
          by_cases h3 : env.disconnectFail = true
          · simp only [if_bool_true h3]
            refine ⟨by simp [raiseErr, emit, r2, hsnap], ?_,
              by simpa [raiseErr, emit] using r3, ?_, ?_⟩
            · simp only [raiseErr, emit]
              rw [r4]
              rw [List.append_assoc, txOpen, txOpenFrom_append, txOpenFrom_append]
              rw [show txOpenFrom false s.trace = false from htx, r5]
              rfl
            · intro bb2 h
              simp at h
            · intro e2 reg bb2 h
              injection h with he hreg hbb
              refine ⟨hreg.symm, hbb.symm, ?_⟩
              simp [raiseErr, emit]
              rw [r1, he]
          · rw [Bool.not_eq_true] at h3
            simp only [if_bool_false h3]
            refine ⟨by simp [emit, r2, hsnap], ?_, by simpa [emit] using r3, ?_, ?_⟩
            · simp only [emit]
              rw [r4]
              rw [List.append_assoc, List.append_assoc, txOpen, txOpenFrom_append,
                txOpenFrom_append]
              rw [show txOpenFrom false s.trace = false from htx, r5]
              rfl
            · intro bb2 h
              injection h with hbb
              refine ⟨hbb.symm, ?_⟩
              simp [emit]
              rw [r1]
            · intro e2 reg bb2 h
              simp at h

theorem streamBlock_spec (cmd : CatalogDescr) (env : Env) (temp : CatalogDescr) (s : St)
    (hsnap : s.snap = none) (htx : txOpen s.trace = false) :
    (streamBlock cmd env temp s).1.snap = none
    ∧ txOpen (streamBlock cmd env temp s).1.trace = false
    ∧ (∀ bb, (streamBlock cmd env temp s).2 = StreamOutcome.sOk bb →
        (streamBlock cmd env temp s).1.raised = s.raised
        ∧ (streamBlock cmd env temp s).1.db.backups = bb :: s.db.backups)
    ∧ (∀ e reg bb, (streamBlock cmd env temp s).2 = StreamOutcome.sFail e reg bb →
        (streamBlock cmd env temp s).1.raised = s.raised ++ [e]
        ∧ (reg = true →
            (streamBlock cmd env temp s).1.db.backups = bb :: s.db.backups)) := by
  by_cases h1 : env.connectFail = true
  · simp only [streamBlock, if_bool_true h1]
    refine ⟨hsnap, by simpa [raiseErr] using htx, ?_, ?_⟩
    · intro bb h
      simp at h
    · intro e reg bb h
      injection h with he hreg hbb
      exact ⟨by simp [raiseErr, he], fun hr => by rw [← hreg] at hr; simp at hr⟩
  · rw [Bool.not_eq_true] at h1
    simp only [streamBlock, if_bool_false h1]
    by_cases h2 : env.identifyFail = true
    · simp only [if_bool_true h2]
      refine ⟨hsnap, ?_, ?_, ?_⟩
      · simp only [raiseErr, emit, List.append_assoc]
        rw [txOpen, txOpenFrom_append, show txOpenFrom false s.trace = false from htx]
        rfl
      · intro bb h
        simp at h
      · intro e reg bb h
        injection h with he hreg hbb
        exact ⟨by simp [raiseErr, emit, he], fun hr => by rw [← hreg] at hr; simp at hr⟩
    · rw [Bool.not_eq_true] at h2
      simp only [if_bool_false h2]
      by_cases h3 : env.basebackupFail = true
      · simp only [if_bool_true h3]
        refine ⟨hsnap, ?_, ?_, ?_⟩
        · simp only [raiseErr, emit, List.append_assoc]
          rw [txOpen, txOpenFrom_append, show txOpenFrom false s.trace = false from htx]
          rfl
        · intro bb h
          simp at h
        · intro e reg bb h
          injection h with he hreg hbb
          exact ⟨by simp [raiseErr, emit, he], fun hr => by rw [← hreg] at hr; simp at hr⟩
      · rw [Bool.not_eq_true] at h3
        simp only [if_bool_false h3]
        by_cases h4 : env.startFail = true
        · simp only [if_bool_true h4]
          refine ⟨hsnap, ?_, ?_, ?_⟩
          · simp only [raiseErr, emit, List.append_assoc]
            rw [txOpen, txOpenFrom_append, show txOpenFrom false s.trace = false from htx]
            rfl
          · intro bb h
            simp at h
          · intro e reg bb h
            injection h with he hreg hbb
            exact ⟨by simp [raiseErr, emit, he], fun hr => by rw [← hreg] at hr; simp at hr⟩
        · rw [Bool.not_eq_true] at h4
          simp only [if_bool_false h4]
          by_cases h5 : env.initFail = true
          · simp only [if_bool_true h5]
            refine ⟨rfl, ?_, ?_, ?_⟩
            · simp only [raiseErr, emit, rollbackTransaction, startTransaction,
                List.append_assoc]
              rw [txOpen, txOpenFrom_append, show txOpenFrom false s.trace = false from htx]
              rfl
            · intro bb h
              simp at h
            · intro e reg bb h
              injection h with he hreg hbb
              exact ⟨by simp [raiseErr, emit, rollbackTransaction, startTransaction, he],
                fun hr => by rw [← hreg] at hr; simp at hr⟩
          · rw [Bool.not_eq_true] at h5
            simp only [if_bool_false h5]
            by_cases h6 : env.createFail = true
            · simp only [if_bool_true h6]
              refine ⟨rfl, ?_, ?_, ?_⟩
              · simp only [raiseErr, emit, rollbackTransaction, startTransaction,
                  List.append_assoc]
                rw [txOpen, txOpenFrom_append, show txOpenFrom false s.trace = false from htx]
                rfl
              · intro bb h
                simp at h
              · intro e reg bb h
                injection h with he hreg hbb
                exact ⟨by simp [raiseErr, emit, rollbackTransaction, startTransaction, he],
                  fun hr => by rw [← hreg] at hr; simp at hr⟩
            · rw [Bool.not_eq_true] at h6
              simp only [if_bool_false h6]
              by_cases h7 : env.registerFail = true
              · simp only [if_bool_true h7]
                refine ⟨rfl, ?_, ?_, ?_⟩
                · simp only [raiseErr, emit, rollbackTransaction, startTransaction,
                    List.append_assoc]
                  rw [txOpen, txOpenFrom_append, show txOpenFrom false s.trace = false from htx]
                  rfl
                · intro bb h
                  simp at h
                · intro e reg bb h
                  injection h with he hreg hbb
                  exact ⟨by simp [raiseErr, emit, rollbackTransaction, startTransaction, he],
                    fun hr => by rw [← hreg] at hr; simp at hr⟩
              · rw [Bool.not_eq_true] at h7
                simp only [if_bool_false h7]
                have hpost := streamBlockPost_spec env
                  (registerBasebackup (startTransaction (emit Event.identifyEv
                    (emit Event.connectEv s))).db
                    { archive_id := temp.id, label := cmd.backup_profile.label }).2
                  (commitTransaction (emit (Event.registerBBEv
                    (registerBasebackup (startTransaction (emit Event.identifyEv
                      (emit Event.connectEv s))).db
                      { archive_id := temp.id, label := cmd.backup_profile.label }).2.id)
                    { startTransaction (emit Event.identifyEv (emit Event.connectEv s)) with
                        db := (registerBasebackup (startTransaction (emit Event.identifyEv
                          (emit Event.connectEv s))).db
                          { archive_id := temp.id, label := cmd.backup_profile.label }).1 }))
                  (by simp [commitTransaction])
                  (by
                    simp only [commitTransaction, emit, startTransaction, List.append_assoc]
                    rw [txOpen, txOpenFrom_append, show txOpenFrom false s.trace = false from htx]
                    rfl)
                obtain ⟨p1, p2, p3, p4, p5⟩ := hpost
                refine ⟨p1, p2, ?_, ?_⟩
                · intro bb h
                  obtain ⟨hbb, hr⟩ := p4 bb h
                  constructor
                  · rw [hr]
                    simp [commitTransaction, emit, startTransaction]
                  · rw [p3, hbb]
                    simp [commitTransaction, emit, startTransaction, registerBasebackup]
                · intro e reg bb h
                  obtain ⟨hreg, hbb, hr⟩ := p5 e reg bb h
                  constructor
                  · rw [hr]
                    simp [commitTransaction, emit, startTransaction]
                  · intro _
                    rw [p3, hbb]
                    simp [commitTransaction, emit, startTransaction, registerBasebackup]

theorem setStatus_head_find (db : DB) (bb : BaseBackupDescr) (rest : List BaseBackupDescr)
    (h : db.backups = bb :: rest) (status : String) :
    ((setBackupStatus db bb.id status).backups.find?
      (fun b => b.id == bb.id)).map (fun b => b.status) = some status := by
  simp [setBackupStatus, h, List.find?]

theorem bbStreamPhase_spec (cmd : CatalogDescr) (env : Env) (temp : CatalogDescr) (s : St)
    (hsnap : s.snap = none) (htx : txOpen s.trace = false) (hraised : s.raised = []) :
    (∀ e, (bbStreamPhase cmd env temp s).result = Except.error e →
        (bbStreamPhase cmd env temp s).st.raised.head? = some e
        ∧ txOpen (bbStreamPhase cmd env temp s).st.trace = false)
    ∧ ((bbStreamPhase cmd env temp s).result = Except.ok () →
        txOpen (bbStreamPhase cmd env temp s).st.trace = false
        ∧ (∃ pre, (bbStreamPhase cmd env temp s).st.trace = pre ++ [Event.txCommit])
        ∧ (bbStreamPhase cmd env temp s).registered = true
        ∧ statusOf (bbStreamPhase cmd env temp s) = some BASEBACKUP_STATUS_READY)
    ∧ (∀ e, (bbStreamPhase cmd env temp s).result = Except.error e →
        (bbStreamPhase cmd env temp s).registered = true →
        env.finalizeFail = false →
        (env.abortStartTxFail = false → env.abortFail = false → env.abortCommitFail = false →
          (∃ pre, (bbStreamPhase cmd env temp s).st.trace = pre ++
            [Event.txStart, Event.abortBBEv (bbStreamPhase cmd env temp s).backup.id,
             Event.txCommit])
          ∧ statusOf (bbStreamPhase cmd env temp s) = some BASEBACKUP_STATUS_ABORTED)
        ∧ (env.abortStartTxFail = false → env.abortFail = false → env.abortCommitFail = true →
          ∃ pre, (bbStreamPhase cmd env temp s).st.trace = pre ++
            [Event.txStart, Event.abortBBEv (bbStreamPhase cmd env temp s).backup.id,
             Event.txRollback])
        ∧ (env.abortStartTxFail = false → env.abortFail = true →
          ∃ pre, (bbStreamPhase cmd env temp s).st.trace = pre ++
            [Event.txStart, Event.txRollback])) := by
  obtain ⟨q1, q2, q3, q4⟩ := streamBlock_spec cmd env temp s hsnap htx
  rcases hsb : streamBlock cmd env temp s with ⟨s2, out⟩
  rw [hsb] at q1 q2 q3 q4
  simp only at q1 q2
  cases out with
  | sOk bb =>
      obtain ⟨w1, w2⟩ := q3 bb rfl
      simp only at w1 w2
      simp only [bbStreamPhase, hsb]
      by_cases hf : env.finalizeFail = true
      · simp only [if_bool_true hf]
        refine ⟨?_, ?_, ?_⟩
        · intro e he
          injection he with he
          constructor
          · simp [raiseErr, rollbackTransaction, startTransaction, w1, hraised, ← he]
          · simp only [raiseErr, rollbackTransaction, startTransaction, List.append_assoc]
            rw [txOpen, txOpenFrom_append, show txOpenFrom false s2.trace = false from q2]
            rfl
        · intro he
          simp at he
        · intro e he hreg hf2
          rw [hf2] at hf
          simp at hf
      · rw [Bool.not_eq_true] at hf
        simp only [if_bool_false hf]
        refine ⟨?_, ?_, ?_⟩
        · intro e he
          simp at he
        · intro _
          refine ⟨?_, ?_, trivial, ?_⟩
          · simp only [commitTransaction, emit, startTransaction, List.append_assoc]
            rw [txOpen, txOpenFrom_append, show txOpenFrom false s2.trace = false from q2]
            rfl
          · refine ⟨s2.trace ++ [Event.txStart, Event.finalizeBBEv bb.id], ?_⟩
            simp [commitTransaction, emit, startTransaction]
          · simp only [statusOf, commitTransaction, emit, startTransaction, finalizeBasebackup]
            exact setStatus_head_find _ bb s.db.backups w2 _
        · intro e he
          simp at he
  | sFail e2 reg bb =>
      obtain ⟨w1, w2⟩ := q4 e2 reg bb rfl
      simp only at w1
      simp only [bbStreamPhase, hsb]
      cases reg with
      | false =>
          simp only [Bool.false_eq_true, if_false]
          refine ⟨?_, ?_, ?_⟩
          · intro e he
            injection he with he
            exact ⟨by simp [w1, hraised, ← he], q2⟩
          · intro he
            simp at he
          · intro e he hreg
            simp at hreg
      | true =>
          have hbk := w2 rfl
          simp only at hbk
          simp only [eq_self_iff_true, if_true]
          by_cases ha1 : env.abortStartTxFail = true
          · simp only [if_bool_true ha1]
            refine ⟨?_, ?_, ?_⟩
            · intro e he
              injection he with he
              exact ⟨by simp [raiseErr, w1, hraised, ← he], q2⟩
            · intro he
              simp at he
            · intro e he hreg hf
              refine ⟨?_, ?_, ?_⟩
              · intro hc
                simp [ha1] at hc
              · intro hc
                simp [ha1] at hc
              · intro hc
                simp [ha1] at hc
          · rw [Bool.not_eq_true] at ha1
            simp only [if_bool_false ha1]
            by_cases ha2 : env.abortFail = true
            · simp only [if_bool_true ha2]
              refine ⟨?_, ?_, ?_⟩
              · intro e he
                injection he with he
                constructor
                · simp [rollbackTransaction, raiseErr, startTransaction, w1, hraised, ← he]
                · simp only [rollbackTransaction, raiseErr, startTransaction,
                    List.append_assoc]
                  rw [txOpen, txOpenFrom_append,
                    show txOpenFrom false s2.trace = false from q2]
                  rfl
              · intro he
                simp at he
              · intro e he hreg hf
                refine ⟨?_, ?_, ?_⟩
                · intro _ hc
                  simp [ha2] at hc
                · intro _ hc
                  simp [ha2] at hc
                · intro _ _
                  refine ⟨s2.trace, ?_⟩
                  simp [rollbackTransaction, raiseErr, startTransaction]
            · rw [Bool.not_eq_true] at ha2
              simp only [if_bool_false ha2]
              by_cases ha3 : env.abortCommitFail = true
              · simp only [if_bool_true ha3]
                refine ⟨?_, ?_, ?_⟩
                · intro e he
                  injection he with he
                  constructor
                  · simp [rollbackTransaction, raiseErr, emit, startTransaction, w1,
                      hraised, ← he]
                  · simp only [rollbackTransaction, raiseErr, emit, startTransaction,
                      List.append_assoc]
                    rw [txOpen, txOpenFrom_append,
                      show txOpenFrom false s2.trace = false from q2]
                    rfl
                · intro he
                  simp at he
                · intro e he hreg hf
                  refine ⟨?_, ?_, ?_⟩
                  · intro _ _ hc
                    simp [ha3] at hc
                  · intro _ _ _
                    refine ⟨s2.trace, ?_⟩
                    simp [rollbackTransaction, raiseErr, emit, startTransaction]
                  · intro _ hc
                    simp [ha2] at hc
              · rw [Bool.not_eq_true] at ha3
                simp only [if_bool_false ha3]
                refine ⟨?_, ?_, ?_⟩
                · intro e he
                  injection he with he
                  constructor
                  · simp [commitTransaction, raiseErr, emit, startTransaction, w1,
                      hraised, ← he]
                  · simp only [commitTransaction, raiseErr, emit, startTransaction,
                      List.append_assoc]
                    rw [txOpen, txOpenFrom_append,
                      show txOpenFrom false s2.trace = false from q2]
                    rfl
                · intro he
                  simp at he
                · intro e he hreg hf
                  refine ⟨?_, ?_, ?_⟩
                  · intro _ _ _
                    constructor
                    · refine ⟨s2.trace, ?_⟩
                      simp [commitTransaction, emit, startTransaction]
                    · simp only [statusOf, commitTransaction, emit, startTransaction,
                        abortBasebackup]
                      exact setStatus_head_find _ bb s.db.backups hbk _
                  · intro _ _ hc
                    simp [ha3] at hc
                  · intro _ hc
                    simp [ha2] at hc

theorem startBB_decomp (cmd : CatalogDescr) (env : Env) (db : DB) :
    (startBasebackupCommand cmd env db).registered = true →
    ∃ temp s1, startBasebackupCommand cmd env db = bbStreamPhase cmd env temp s1
      ∧ s1.db = db ∧ s1.snap = none ∧ txOpen s1.trace = false ∧ s1.raised = [] := by
  simp only [startBasebackupCommand, startTransaction, commitTransaction,
    rollbackTransaction, raiseErr, emit]
  by_cases hA0 : (existsByName db cmd.archive_name).id ≥ 0
  · by_cases hg : env.getConnFail = true
    · simp only [if_pos (And.intro hA0 hg)]
      intro h
      simp at h
    · rw [Bool.not_eq_true] at hg
      have hcond : ¬((existsByName db cmd.archive_name).id ≥ 0 ∧ env.getConnFail = true) :=
        fun hc => by simp [hg] at hc
      have hnlt : ¬((existsByName db cmd.archive_name).id < 0) := not_lt.mpr hA0
      simp only [if_neg hcond, if_pos hA0, if_neg hnlt]
      by_cases hn : cmd.backup_profile.name = ""
      · simp only [if_neg (not_not_intro hn)]
        by_cases hp : env.getProfileFail = true
        · simp only [if_bool_true hp]
          intro h
          simp at h
        · rw [Bool.not_eq_true] at hp
          simp only [if_bool_false hp]
          by_cases hpid : (getBackupProfile db "default").profile_id < 0
          · simp only [if_pos hpid]
            intro h
            simp at h
          · simp only [if_neg hpid]
            intro _
            exact ⟨_, _, rfl, rfl, rfl, rfl, rfl⟩
      · simp only [if_pos hn]
        by_cases hp : env.getProfileFail = true
        · simp only [if_bool_true hp]
          intro h
          simp at h
        · rw [Bool.not_eq_true] at hp
          simp only [if_bool_false hp]
          by_cases hpid : (getBackupProfile db cmd.backup_profile.name).profile_id < 0
          · simp only [if_pos hpid]
            intro h
            simp at h
          · simp only [if_neg hpid]
            intro _
            exact ⟨_, _, rfl, rfl, rfl, rfl, rfl⟩
  · have hcond : ¬((existsByName db cmd.archive_name).id ≥ 0 ∧ env.getConnFail = true) :=
      fun hc => hA0 hc.1
    have hlt : (existsByName db cmd.archive_name).id < 0 := not_le.mp hA0
    simp only [if_neg hcond, if_neg hA0, if_pos hlt]
    intro h
    simp at h

/-- Sample catalog: one archive `A` with a `basebackup` connection and a
`default` backup profile. -/
def sampleDb : DB :=
  { archives := [{ id := 0, archive_name := "A", directory := "/a", compression := false }],
    connections := [{ archive_id := 0, type := CONNECTION_TYPE_BASEBACKUP, pghost := "h" }],
    profiles := [{ profile_id := 0, name := "default" }],
    nextArchiveId := 1, nextProfileId := 1, nextBackupId := 0 }

/-- Sample command descriptor naming archive `A`. -/
def sampleCmd : CatalogDescr := { archive_name := "A" }

/-- C1 (amended): for every failure raised inside the streaming try block
after the backup was registered (equivalently: the run is registered, throws,
and the failure is not the final finalize step), the command opens a fresh
transaction and calls `abort_basebackup`; if the compensation itself fails
its transaction is rolled back (when it was entered) and the secondary error
is discarded; the error raised to the caller is always the original
(first-raised) failure.  A failure of the finalize step does not trigger the
compensation (see the counterexample). -/
theorem c1_abort_compensation_amended (cmd : CatalogDescr) (env : Env) (db : DB) (e : Err)
    (hreg : (startBasebackupCommand cmd env db).registered = true)
    (hfin : env.finalizeFail = false)
    (herr : (startBasebackupCommand cmd env db).result = Except.error e) :
    (startBasebackupCommand cmd env db).st.raised.head? = some e
    ∧ (env.abortStartTxFail = false → env.abortFail = false → env.abortCommitFail = false →
        ∃ pre, (startBasebackupCommand cmd env db).st.trace = pre ++
          [Event.txStart, Event.abortBBEv (startBasebackupCommand cmd env db).backup.id,
           Event.txCommit])
    ∧ (env.abortStartTxFail = false → env.abortFail = false → env.abortCommitFail = true →
        ∃ pre, (startBasebackupCommand cmd env db).st.trace = pre ++
          [Event.txStart, Event.abortBBEv (startBasebackupCommand cmd env db).backup.id,
           Event.txRollback])
    ∧ (env.abortStartTxFail = false → env.abortFail = true →
        ∃ pre, (startBasebackupCommand cmd env db).st.trace = pre ++
          [Event.txStart, Event.txRollback]) := by
  obtain ⟨temp, s1, hdec, hdb, hsnap, htx, hr⟩ := startBB_decomp cmd env db hreg
  rw [hdec] at herr hreg ⊢
  obtain ⟨A, B, C⟩ := bbStreamPhase_spec cmd env temp s1 hsnap htx hr
  obtain ⟨a1, _⟩ := A e herr
  obtain ⟨c1, c2, c3⟩ := C e herr hreg hfin
  exact ⟨a1, fun f1 f2 f3 => (c1 f1 f2 f3).1, c2, c3⟩

/-- C1 witness: a stream disconnect failure with a failing
`abort_basebackup`: the original disconnect error is the one reported. -/
theorem c1_abort_compensation_witness :
    (startBasebackupCommand sampleCmd { disconnectFail := true, abortFail := true }
      sampleDb).st.raised.head? = some (Err.external Site.disconnect)
    ∧ ∃ pre, (startBasebackupCommand sampleCmd { disconnectFail := true, abortFail := true }
        sampleDb).st.trace = pre ++ [Event.txStart, Event.txRollback] :=
  ⟨(c1_abort_compensation_amended sampleCmd
      { disconnectFail := true, abortFail := true } sampleDb
      (Err.external Site.disconnect) rfl rfl rfl).1,
   (c1_abort_compensation_amended sampleCmd
      { disconnectFail := true, abortFail := true } sampleDb
      (Err.external Site.disconnect) rfl rfl rfl).2.2.2 rfl rfl⟩

/-- C1 counterexample: when `finalize_basebackup` itself throws, the failure
occurs after the backup was registered, yet the command never calls
`abort_basebackup`; it only rolls back the finalize transaction and raises
the finalize error.  This refutes the claim as stated. -/
theorem c1_finalize_failure_counterexample :
    (startBasebackupCommand sampleCmd { finalizeFail := true } sampleDb).registered = true
    ∧ (startBasebackupCommand sampleCmd { finalizeFail := true } sampleDb).result
        = Except.error (Err.external Site.finalize)
    ∧ abortEvCount
        (startBasebackupCommand sampleCmd { finalizeFail := true } sampleDb).st.trace = 0 :=
  ⟨rfl, rfl, rfl⟩

/-- C2 (amended): when the backup was registered and the terminal catalog
calls themselves succeed (the finalize call on the success path, the abort
compensation on the failure path), the registered backup ends with status
`ready` on normal completion and `aborted` when the command throws; a
failing finalize or compensation can instead leave it `in progress` (see the
counterexample). -/
theorem c2_terminal_status_amended (cmd : CatalogDescr) (env : Env) (db : DB)
    (hreg : (startBasebackupCommand cmd env db).registered = true)
    (ha1 : env.abortStartTxFail = false) (ha2 : env.abortFail = false)
    (ha3 : env.abortCommitFail = false) (hf : env.finalizeFail = false) :
    statusOf (startBasebackupCommand cmd env db) =
      some (if exceptOk (startBasebackupCommand cmd env db).result then
        BASEBACKUP_STATUS_READY else BASEBACKUP_STATUS_ABORTED) := by
  obtain ⟨temp, s1, hdec, hdb, hsnap, htx, hr⟩ := startBB_decomp cmd env db hreg
  rw [hdec] at hreg ⊢
  obtain ⟨A, B, C⟩ := bbStreamPhase_spec cmd env temp s1 hsnap htx hr
  cases hres : (bbStreamPhase cmd env temp s1).result with
  | ok u =>
      cases u
      obtain ⟨_, _, _, h4⟩ := B hres
      simpa [exceptOk] using h4
  | error e =>
      obtain ⟨c1, _, _⟩ := C e hres hreg hf
      simpa [exceptOk] using (c1 ha1 ha2 ha3).2

/-- C2 witness: a disconnect failure after registration with a successful
compensation leaves the backup `aborted`. -/
theorem c2_terminal_status_witness :
    statusOf (startBasebackupCommand sampleCmd { disconnectFail := true } sampleDb) =
      some (if exceptOk (startBasebackupCommand sampleCmd { disconnectFail := true }
        sampleDb).result then BASEBACKUP_STATUS_READY else BASEBACKUP_STATUS_ABORTED) :=
  c2_terminal_status_amended sampleCmd { disconnectFail := true } sampleDb rfl rfl rfl rfl rfl

/-- C2 counterexample: a failing `finalize_basebackup` ends the command with
an error while the registered backup still has status `in progress`,
refuting the claim that no backup is ever left `in progress` after the
command throws. -/
theorem c2_in_progress_counterexample :
    (startBasebackupCommand sampleCmd { finalizeFail := true } sampleDb).registered = true
    ∧ exceptOk (startBasebackupCommand sampleCmd { finalizeFail := true } sampleDb).result
        = false
    ∧ statusOf (startBasebackupCommand sampleCmd { finalizeFail := true } sampleDb)
        = some BASEBACKUP_STATUS_IN_PROGRESS :=
  ⟨rfl, rfl, rfl⟩

/-- Sample catalog with one archive `A` and no backup profiles. -/
def sampleDbNoProfile : DB :=
  { archives := [{ id := 0, archive_name := "A", directory := "/a", compression := false }],
    connections := [{ archive_id := 0, type := CONNECTION_TYPE_BASEBACKUP }],
    nextArchiveId := 1 }

/-- C7: `start-basebackup` loads the named profile when one was supplied and
the profile named `default` otherwise; if the loaded profile carries the
`profile_id < 0` sentinel the command fails with the error naming the
missing profile (`profileNotExists name`, whose message is
`backup profile "<name>" does not exist`, respectively
`defaultProfileNotFound`, whose message names `"default"`), before any
stream interaction takes place and before anything is registered. -/
theorem c7_profile_resolution (cmd : CatalogDescr) (env : Env) (db : DB)
    (harch : (existsByName db cmd.archive_name).id ≥ 0)
    (hgc : env.getConnFail = false)
    (hgp : env.getProfileFail = false)
    (hmiss : (getBackupProfile db (if cmd.backup_profile.name ≠ "" then
      cmd.backup_profile.name else "default")).profile_id < 0) :
    (startBasebackupCommand cmd env db).result =
      Except.error (if cmd.backup_profile.name ≠ "" then
        Err.profileNotExists cmd.backup_profile.name else Err.defaultProfileNotFound)
    ∧ streamEvCount (startBasebackupCommand cmd env db).st.trace = 0
    ∧ (startBasebackupCommand cmd env db).registered = false := by
  have hcond : ¬((existsByName db cmd.archive_name).id ≥ 0 ∧ env.getConnFail = true) :=
    fun hc => by simp [hgc] at hc
  have hnlt : ¬((existsByName db cmd.archive_name).id < 0) := not_lt.mpr harch
  simp only [startBasebackupCommand, startTransaction, commitTransaction,
    rollbackTransaction, raiseErr, emit, if_neg hcond, if_pos harch, if_neg hnlt]
  by_cases hn : cmd.backup_profile.name = ""
  · rw [if_neg (not_not_intro hn)] at hmiss ⊢
    simp only [if_neg (not_not_intro hn), if_bool_false hgp, if_pos hmiss]
    exact ⟨by trivial, by trivial, by trivial⟩
  · rw [if_pos hn] at hmiss ⊢
    simp only [if_pos hn, if_bool_false hgp, if_pos hmiss]
    exact ⟨by trivial, by trivial, by trivial⟩

/-- C7 witness: requesting profile `p` in a catalog without profiles fails
with the error naming `p`, with no stream opened. -/
theorem c7_profile_resolution_witness :
    (startBasebackupCommand { archive_name := "A", backup_profile := { name := "p" } }
      {} sampleDbNoProfile).result = Except.error (Err.profileNotExists "p")
    ∧ streamEvCount (startBasebackupCommand
        { archive_name := "A", backup_profile := { name := "p" } }
        {} sampleDbNoProfile).st.trace = 0 := by
  have h := c7_profile_resolution
    { archive_name := "A", backup_profile := { name := "p" } } {} sampleDbNoProfile
    (by decide) rfl rfl (by decide)
  exact ⟨by simpa using h.1, h.2.1⟩

/-- C10: running `start-basebackup` on a missing archive name commits the
lookup transaction, then the error path issues one more
`rollbackTransaction` while no transaction is in progress, and raises the
archive-missing error. -/
theorem c10_spurious_rollback (cmd : CatalogDescr) (env : Env) (db : DB)
    (hmiss : (existsByName db cmd.archive_name).id < 0) :
    (startBasebackupCommand cmd env db).result =
      Except.error (Err.archiveMissing cmd.archive_name)
    ∧ (startBasebackupCommand cmd env db).st.trace =
        [Event.txStart, Event.txCommit, Event.txRollback]
    ∧ txOpen ((startBasebackupCommand cmd env db).st.trace.take 2) = false := by
  have hA0 : ¬((existsByName db cmd.archive_name).id ≥ 0) := not_le.mpr hmiss
  have hcond : ¬((existsByName db cmd.archive_name).id ≥ 0 ∧ env.getConnFail = true) :=
    fun hc => hA0 hc.1
  simp only [startBasebackupCommand, startTransaction, commitTransaction,
    rollbackTransaction, raiseErr, emit, if_neg hcond, if_neg hA0, if_pos hmiss]
  exact ⟨by trivial, by trivial, by trivial⟩

/-- C10 witness: the behaviour on an empty catalog. -/
theorem c10_spurious_rollback_witness :
    (startBasebackupCommand { archive_name := "A" } {} {}).result =
      Except.error (Err.archiveMissing "A")
    ∧ (startBasebackupCommand { archive_name := "A" } {} {}).st.trace =
        [Event.txStart, Event.txCommit, Event.txRollback] := by
  have h := c10_spurious_rollback { archive_name := "A" } {} {} (by decide)
  exact ⟨h.1, h.2.1⟩

/-- C3 (code-bug evidence): on an existing archive the success path of
`DropArchiveCatalogCommand::execute` invokes the cascading `dropArchive`
store routine twice before committing, and in the missing + `existsOk` path
(documented in the source as a no-op) it still invokes it once. -/
theorem c3_double_drop_evidence :
    dropArchiveEvCount (dropArchiveCommand sampleCmd false {} sampleDb).1.trace = 2
    ∧ (dropArchiveCommand sampleCmd false {} sampleDb).2 = Except.ok ()
    ∧ (dropArchiveCommand sampleCmd false {} sampleDb).1.trace
        = [Event.txStart, Event.dropArchiveEv "A", Event.dropArchiveEv "A", Event.txCommit]
    ∧ dropArchiveEvCount
        (dropArchiveCommand { archive_name := "B" } true {} sampleDb).1.trace = 1
    ∧ (dropArchiveCommand { archive_name := "B" } true {} sampleDb).2 = Except.ok () :=
  ⟨rfl, rfl, rfl, rfl, rfl⟩

/-- C4 (code-bug evidence): the MAX RATE detail line prints `NOT RATED` for
a positive `max_rate` and the numeric value for `max_rate = 0` — the inverse
of the intended display. -/
theorem c4_max_rate_inverted_evidence :
    maxRateDisplay { max_rate := 100 } = ("MAX RATE", "NOT RATED")
    ∧ maxRateDisplay { max_rate := 0 } = ("MAX RATE(kbps)", "0") :=
  ⟨rfl, rfl⟩

/-- The row that inserting a new backup profile with the required
attribute set is expected to produce: the seven required attributes from the
command's profile descriptor, defaults elsewhere, and a fresh id. -/
def insertedProfileRow (cmd : CatalogDescr) (db : DB) : BackupProfileDescr :=
  { profile_id := db.nextProfileId,
    name := cmd.backup_profile.name,
    compress_type := cmd.backup_profile.compress_type,
    max_rate := cmd.backup_profile.max_rate,
    label := cmd.backup_profile.label,
    fast_checkpoint := cmd.backup_profile.fast_checkpoint,
    include_wal := cmd.backup_profile.include_wal,
    wait_for_wal := cmd.backup_profile.wait_for_wal,
    noverify_checksums := false,
    affectedAttributes := requiredProfileAttrs }

/-- C5: `create-backup-profile` inserts a missing profile with exactly the
affected-attribute set `{name, compress_type, max_rate, label,
fast_checkpoint, include_wal, wait_for_wal}` (so `noverify_checksums` keeps
its default); an existing profile makes the command a no-op under `existsOk`
(database unchanged) and an error otherwise. -/
theorem c5_create_backup_profile (cmd : CatalogDescr) (existsOk : Bool) (env : Env)
    (db : DB) :
    ((getBackupProfile db cmd.backup_profile.name).profile_id < 0 →
       (createBackupProfileCommand cmd existsOk env db).2 = Except.ok ()
       ∧ (createBackupProfileCommand cmd existsOk env db).1.trace =
           [Event.txStart, Event.insertProfileEv requiredProfileAttrs, Event.txCommit]
       ∧ (createBackupProfileCommand cmd existsOk env db).1.db.profiles =
           db.profiles ++ [insertedProfileRow cmd db])
    ∧ (¬((getBackupProfile db cmd.backup_profile.name).profile_id < 0) → existsOk = true →
       (createBackupProfileCommand cmd existsOk env db).2 = Except.ok ()
       ∧ (createBackupProfileCommand cmd existsOk env db).1.db = db
       ∧ (createBackupProfileCommand cmd existsOk env db).1.trace =
           [Event.txStart, Event.txCommit])
    ∧ (¬((getBackupProfile db cmd.backup_profile.name).profile_id < 0) → existsOk = false →
       (createBackupProfileCommand cmd existsOk env db).2 =
         Except.error (Err.profileExists cmd.backup_profile.name)
       ∧ (createBackupProfileCommand cmd existsOk env db).1.db = db
       ∧ (createBackupProfileCommand cmd existsOk env db).1.trace =
           [Event.txStart, Event.txRollback]) := by
  refine ⟨?_, ?_, ?_⟩
  · intro hmiss
    simp only [createBackupProfileCommand, startTransaction, commitTransaction,
      rollbackTransaction, raiseErr, emit, if_pos hmiss]
    refine ⟨by trivial, by trivial, ?_⟩
    simp [createBackupProfileStore, insertedProfileRow, requiredProfileAttrs,
      SQL_BCK_PROF_NAME_ATTNO,
      SQL_BCK_PROF_COMPRESS_TYPE_ATTNO, SQL_BCK_PROF_MAX_RATE_ATTNO,
      SQL_BCK_PROF_LABEL_ATTNO, SQL_BCK_PROF_FAST_CHKPT_ATTNO,
      SQL_BCK_PROF_INCL_WAL_ATTNO, SQL_BCK_PROF_WAIT_FOR_WAL_ATTNO,
      SQL_BCK_PROF_NOVERIFY_CHECKSUMS_ATTNO]
  · intro hex hok
    simp only [createBackupProfileCommand, startTransaction, commitTransaction,
      rollbackTransaction, raiseErr, emit, if_neg hex, hok, Bool.not_true,
      Bool.false_eq_true, if_false]
    exact ⟨by trivial, by trivial, by trivial⟩
  · intro hex hnok
    simp only [createBackupProfileCommand, startTransaction, commitTransaction,
      rollbackTransaction, raiseErr, emit, if_neg hex, hnok, Bool.not_false, if_true]
    exact ⟨by trivial, by trivial, by trivial⟩

/-- C5 witness: creating profile `p` in the sample catalog inserts it with
the full required attribute set. -/
theorem c5_create_backup_profile_witness :
    (createBackupProfileCommand { backup_profile := { name := "p", max_rate := 7 } }
      false {} sampleDb).2 = Except.ok ()
    ∧ (createBackupProfileCommand { backup_profile := { name := "p", max_rate := 7 } }
        false {} sampleDb).1.trace =
        [Event.txStart, Event.insertProfileEv requiredProfileAttrs, Event.txCommit] := by
  have h := (c5_create_backup_profile
    { backup_profile := { name := "p", max_rate := 7 } } false {} sampleDb).1 (by decide)
  exact ⟨h.1, h.2.1⟩

theorem bbConnCount_zero_of_fresh (l : List ConnectionDescr) (aid : Int)
    (h : ∀ c ∈ l, c.archive_id < aid) :
    (l.filter (fun c =>
      c.archive_id == aid && c.type == CONNECTION_TYPE_BASEBACKUP)).length = 0 := by
  induction l with
  | nil => rfl
  | cons c rest ih =>
      have hc : c.archive_id < aid := h c (by simp)
      have hne : (c.archive_id == aid && c.type == CONNECTION_TYPE_BASEBACKUP) = false := by
        simp [Int.ne_of_lt hc]
      simp only [List.filter, hne]
      exact ih (fun x hx => h x (by simp [hx]))

/-- The `basebackup` connection row that `create-archive` builds from the
descriptor's connection info for the newly assigned archive id. -/
def archiveConnRow (cmd : CatalogDescr) (db : DB) : ConnectionDescr :=
  { cmd.coninfo with archive_id := db.nextArchiveId, type := CONNECTION_TYPE_BASEBACKUP }

/-- C6: creating a new archive (directory lookup with `id < 0` sentinel)
inserts the archive and its `basebackup` connection built from the
descriptor's connection info inside one transaction; assuming the
exactly-one-`basebackup`-connection invariant and fresh surrogate ids,
the invariant still holds for every archive afterwards. -/
theorem c6_create_archive_connection (cmd : CatalogDescr) (existsOk : Bool) (env : Env)
    (db : DB)
    (hinv : connInvariant db)
    (hafresh : ∀ a ∈ db.archives, a.id < db.nextArchiveId)
    (hcfresh : ∀ c ∈ db.connections, c.archive_id < db.nextArchiveId)
    (hnew : (existsDir db cmd.directory).id < 0) :
    (createArchiveCommand cmd existsOk env db).2 = Except.ok ()
    ∧ (createArchiveCommand cmd existsOk env db).1.trace =
        [Event.txStart, Event.createArchiveEv cmd.archive_name,
         Event.createConnEv db.nextArchiveId CONNECTION_TYPE_BASEBACKUP, Event.txCommit]
    ∧ (createArchiveCommand cmd existsOk env db).1.db.connections =
        db.connections ++ [archiveConnRow cmd db]
    ∧ connInvariant (createArchiveCommand cmd existsOk env db).1.db := by
  simp only [createArchiveCommand, startTransaction, commitTransaction, raiseErr, emit,
    createArchiveStore, createCatalogConnection, if_pos hnew]
  refine ⟨by trivial, by trivial, by simp [archiveConnRow], ?_⟩
  intro a ha
  simp only [connInvariant, basebackupConnCount] at hinv ⊢
  simp only [List.mem_append, List.mem_singleton] at ha
  rcases ha with h | h
  · have h1 := hinv a h
    have h2 : a.id < db.nextArchiveId := hafresh a h
    have hne2 : (db.nextArchiveId == a.id) = false := by
      simp only [beq_eq_false_iff_ne]
      exact fun hc => absurd hc.symm (Int.ne_of_lt h2)
    rw [List.filter_append, List.length_append]
    simp [archiveConnRow, List.filter, hne2]
    exact h1
  · rw [h]
    have hz := bbConnCount_zero_of_fresh db.connections db.nextArchiveId hcfresh
    rw [List.filter_append, List.length_append]
    simp only [archiveConnRow, List.filter]
    simp [hz]

/-- C6 witness: a fresh archive created in an empty catalog has exactly one
`basebackup` connection. -/
theorem c6_create_archive_connection_witness :
    (createArchiveCommand { archive_name := "N", directory := "/n" } false {} {}).2
      = Except.ok ()
    ∧ connInvariant (createArchiveCommand
        { archive_name := "N", directory := "/n" } false {} {}).1.db := by
  have h := c6_create_archive_connection { archive_name := "N", directory := "/n" }
    false {} {} (fun a ha => by simp at ha) (fun a ha => by simp at ha)
    (fun c hc => by simp at hc) (by decide)
  exact ⟨h.1, h.2.2.2⟩

/-- Sample catalog with one archive `A` whose only connection has the
sentinel type `unknown`. -/
def sampleDbUnknownConn : DB :=
  { archives := [{ id := 0, archive_name := "A", directory := "/a", compression := false }],
    connections := [{ archive_id := 0 }],
    nextArchiveId := 1 }

/-- C9 (amended): on an existing archive, `create-connection` rejects a
duplicate `(archive_id, type)` pair with the duplicate-connection error and
inserts nothing, and inserts the connection when no such pair exists —
provided the requested type differs from the sentinel type `unknown`;
a duplicate whose stored type is `unknown` is not rejected (see the
counterexample). -/
theorem c9_duplicate_connection_amended (cmd : CatalogDescr) (flag : Bool) (env : Env)
    (db : DB)
    (harch : (existsByName db cmd.archive_name).id ≥ 0)
    (htype : cmd.coninfo.type ≠ CONNECTION_TYPE_UNKNOWN) :
    ((∃ c ∈ db.connections, c.archive_id = (existsByName db cmd.archive_name).id
        ∧ c.type = cmd.coninfo.type) →
      (createConnectionCommand cmd flag env db).2 =
        Except.error (Err.duplicateConn cmd.archive_name)
      ∧ (createConnectionCommand cmd flag env db).1.db = db)
    ∧ ((∀ c ∈ db.connections, ¬(c.archive_id = (existsByName db cmd.archive_name).id
        ∧ c.type = cmd.coninfo.type)) →
      (createConnectionCommand cmd flag env db).2 = Except.ok ()
      ∧ (createConnectionCommand cmd flag env db).1.db.connections =
          db.connections ++ [{ cmd.coninfo with
            archive_id := (existsByName db cmd.archive_name).id }]) := by
  have hnlt : ¬((existsByName db cmd.archive_name).id < 0) := not_lt.mpr harch
  constructor
  · intro hdup
    obtain ⟨c0, hc0, hcid, hctype⟩ := hdup
    have hsome : (db.connections.find? (fun c =>
        c.archive_id == (existsByName db cmd.archive_name).id
        && c.type == cmd.coninfo.type)).isSome := by
      rw [List.find?_isSome]
      exact ⟨c0, hc0, by simp [hcid, hctype]⟩
    obtain ⟨r, hr⟩ := Option.isSome_iff_exists.mp hsome
    have hpr := List.find?_some hr
    simp only [Bool.and_eq_true, beq_iff_eq] at hpr
    simp only [createConnectionCommand, startTransaction, commitTransaction,
      rollbackTransaction, raiseErr, emit, getCatalogConnection, createCatalogConnection,
      if_neg hnlt, hr]
    have hguard : ({ r with affectedAttributes :=
        [SQL_CON_ARCHIVE_ID_ATTNO, SQL_CON_TYPE_ATTNO] } : ConnectionDescr).archive_id ≥ 0
        ∧ ({ r with affectedAttributes :=
        [SQL_CON_ARCHIVE_ID_ATTNO, SQL_CON_TYPE_ATTNO] } : ConnectionDescr).type
          ≠ CONNECTION_TYPE_UNKNOWN := by
      constructor
      · simp only
        rw [hpr.1]
        exact harch
      · simp only
        rw [hpr.2]
        exact htype
    rw [if_pos hguard]
    exact ⟨by trivial, by trivial⟩
  · intro hnone
    have hfind : db.connections.find? (fun c =>
        c.archive_id == (existsByName db cmd.archive_name).id
        && c.type == cmd.coninfo.type) = none := by
      rw [List.find?_eq_none]
      intro x hx
      simp only [Bool.and_eq_true, beq_iff_eq, not_and]
      intro h1 h2
      exact hnone x hx ⟨h1, h2⟩
    simp only [createConnectionCommand, startTransaction, commitTransaction,
      rollbackTransaction, raiseErr, emit, getCatalogConnection, createCatalogConnection,
      if_neg hnlt, hfind]
    have hguard : ¬((-1 : Int) ≥ 0 ∧
        ({ archive_id := -1, affectedAttributes :=
          [SQL_CON_ARCHIVE_ID_ATTNO, SQL_CON_TYPE_ATTNO] } : ConnectionDescr).type
          ≠ CONNECTION_TYPE_UNKNOWN) := by
      intro hc
      exact absurd hc.1 (by decide)
    rw [if_neg hguard]
    exact ⟨by trivial, by trivial⟩

/-- C9 witness: adding a `streamer` connection next to the existing
`basebackup` one succeeds and inserts it. -/
theorem c9_duplicate_connection_witness :
    (createConnectionCommand { archive_name := "A", coninfo := { type := "streamer" } }
      false {} sampleDbNoProfile).2 = Except.ok () := by
  have h := (c9_duplicate_connection_amended
    { archive_name := "A", coninfo := { type := "streamer" } } false {} sampleDbNoProfile
    (by decide) (by decide)).2 (by decide)
  exact h.1

/-- C9 counterexample: with an existing `(archive_id = 0, type = unknown)`
connection, requesting another connection of type `unknown` is not rejected:
the command succeeds and inserts a second identical pair, refuting the claim
for the type `unknown`. -/
theorem c9_unknown_duplicate_counterexample :
    (sampleDbUnknownConn.connections.filter (fun c =>
      c.archive_id == 0 && c.type == CONNECTION_TYPE_UNKNOWN)).length = 1
    ∧ (createConnectionCommand { archive_name := "A" } false {}
        sampleDbUnknownConn).2 = Except.ok ()
    ∧ ((createConnectionCommand { archive_name := "A" } false {}
        sampleDbUnknownConn).1.db.connections.filter (fun c =>
      c.archive_id == 0 && c.type == CONNECTION_TYPE_UNKNOWN)).length = 2 :=
  ⟨rfl, rfl, rfl⟩

/-- The transactional envelope of section 4.C: a failing run reports the
first-raised error unchanged and leaves no transaction open; a successful
run leaves no transaction open and its last store call is the commit. -/
def Envelope (p : St × Except Err Unit) : Prop :=
  (∀ e, p.2 = Except.error e → p.1.raised.head? = some e ∧ txOpen p.1.trace = false)
  ∧ (p.2 = Except.ok () → txOpen p.1.trace = false
      ∧ ∃ pre, p.1.trace = pre ++ [Event.txCommit])

theorem envelope_error (s : St) (e : Err) (h1 : s.raised.head? = some e)
    (h2 : txOpen s.trace = false) : Envelope (s, Except.error e) := by
  constructor
  · intro e' he'
    injection he' with h
    exact h ▸ ⟨h1, h2⟩
  · intro h
    simp at h

theorem envelope_ok (s : St) (h2 : txOpen s.trace = false)
    (h3 : ∃ pre, s.trace = pre ++ [Event.txCommit]) : Envelope (s, Except.ok ()) := by
  constructor
  · intro e' he'
    simp at he'
  · intro _
    exact ⟨h2, h3⟩

theorem dropConnection_envelope (cmd : CatalogDescr) (flag : Bool) (env : Env) (db : DB) :
    Envelope (dropConnectionCommand cmd flag env db) := by
  simp only [dropConnectionCommand, startTransaction, commitTransaction,
    rollbackTransaction, raiseErr, emit, getCatalogConnection]
  by_cases h1 : (existsByName db cmd.archive_name).id ≥ 0
  · simp only [if_pos h1]
    rcases hf : db.connections.find? (fun c =>
        c.archive_id == (existsByName db cmd.archive_name).id
        && c.type == cmd.coninfo.type) with _ | r
    · simp only [hf]
      rw [if_pos (show ((-1 : Int) < 0) by decide)]
      exact envelope_error _ _ rfl rfl
    · simp only [hf]
      by_cases h2 : r.archive_id < 0
      · rw [if_pos h2]
        exact envelope_error _ _ rfl rfl
      · rw [if_neg h2]
        exact envelope_ok _ rfl ⟨_, rfl⟩
  · rw [if_neg h1]
    exact envelope_error _ _ rfl rfl

theorem listConnection_envelope (cmd : CatalogDescr) (flag : Bool) (env : Env) (db : DB) :
    Envelope (listConnectionCommand cmd flag env db) := by
  simp only [listConnectionCommand, startTransaction, commitTransaction,
    rollbackTransaction, raiseErr, emit]
  by_cases h1 : (existsByName db cmd.archive_name).id ≥ 0
  · rw [if_pos h1]
    exact envelope_ok _ rfl ⟨_, rfl⟩
  · rw [if_neg h1]
    exact envelope_error _ _ rfl rfl

theorem createConnection_envelope (cmd : CatalogDescr) (flag : Bool) (env : Env) (db : DB) :
    Envelope (createConnectionCommand cmd flag env db) := by
  simp only [createConnectionCommand, startTransaction, commitTransaction,
    rollbackTransaction, raiseErr, emit, getCatalogConnection, createCatalogConnection]
  by_cases h1 : (existsByName db cmd.archive_name).id < 0
  · rw [if_pos h1]
    exact envelope_error _ _ rfl rfl
  · rw [if_neg h1]
    rcases hf : db.connections.find? (fun c =>
        c.archive_id == (existsByName db cmd.archive_name).id
        && c.type == cmd.coninfo.type) with _ | r
    · simp only [hf]
      have hguard : ¬((-1 : Int) ≥ 0 ∧
          ({ archive_id := -1, affectedAttributes :=
            [SQL_CON_ARCHIVE_ID_ATTNO, SQL_CON_TYPE_ATTNO] } : ConnectionDescr).type
            ≠ CONNECTION_TYPE_UNKNOWN) := by
        intro hc
        exact absurd hc.1 (by decide)
      rw [if_neg hguard]
      exact envelope_ok _ rfl ⟨_, rfl⟩
    · simp only [hf]
      by_cases h2 : ({ r with affectedAttributes :=
          [SQL_CON_ARCHIVE_ID_ATTNO, SQL_CON_TYPE_ATTNO] } : ConnectionDescr).archive_id ≥ 0
          ∧ ({ r with affectedAttributes :=
          [SQL_CON_ARCHIVE_ID_ATTNO, SQL_CON_TYPE_ATTNO] } : ConnectionDescr).type
            ≠ CONNECTION_TYPE_UNKNOWN
      · rw [if_pos h2]
        exact envelope_error _ _ rfl rfl
      · rw [if_neg h2]
        exact envelope_ok _ rfl ⟨_, rfl⟩

theorem listBackupCatalog_envelope (cmd : CatalogDescr) (flag : Bool) (env : Env)
    (db : DB) : Envelope (listBackupCatalogCommand cmd flag env db) := by
  simp only [listBackupCatalogCommand, startTransaction, commitTransaction,
    rollbackTransaction, raiseErr, emit]
  by_cases h1 : (existsByName db cmd.archive_name).id < 0
  · rw [if_pos h1]
    exact envelope_error _ _ rfl rfl
  · rw [if_neg h1]
    exact envelope_ok _ rfl ⟨_, rfl⟩

theorem dropBackupProfile_envelope (cmd : CatalogDescr) (flag : Bool) (env : Env)
    (db : DB) : Envelope (dropBackupProfileCommand cmd flag env db) := by
  simp only [dropBackupProfileCommand, startTransaction, commitTransaction,
    rollbackTransaction, raiseErr, emit, dropBackupProfileStore]
  by_cases h1 : (getBackupProfile db cmd.backup_profile.name).profile_id < 0
  · rw [if_pos h1]
    exact envelope_error _ _ rfl rfl
  · rw [if_neg h1]
    exact envelope_ok _ rfl ⟨_, rfl⟩

theorem listBackupProfile_envelope (detail : Bool) (cmd : CatalogDescr) (env : Env)
    (db : DB) : Envelope (listBackupProfileCommand detail cmd env db) := by
  simp only [listBackupProfileCommand, startTransaction, commitTransaction, emit]
  exact envelope_ok _ rfl ⟨_, rfl⟩

theorem createBackupProfile_envelope (cmd : CatalogDescr) (existsOk : Bool) (env : Env)
    (db : DB) : Envelope (createBackupProfileCommand cmd existsOk env db) := by
  simp only [createBackupProfileCommand, startTransaction, commitTransaction,
    rollbackTransaction, raiseErr, emit, createBackupProfileStore]
  by_cases h1 : (getBackupProfile db cmd.backup_profile.name).profile_id < 0
  · rw [if_pos h1]
    exact envelope_ok _ rfl ⟨_, rfl⟩
  · rw [if_neg h1]
    cases existsOk with
    | false =>
        simp only [Bool.not_false, if_true]
        exact envelope_error _ _ rfl rfl
    | true =>
        simp only [Bool.not_true, Bool.false_eq_true, if_false]
        exact envelope_ok _ rfl ⟨_, rfl⟩

theorem verifyArchive_envelope (cmd : CatalogDescr) (flag : Bool) (env : Env) (db : DB) :
    Envelope (verifyArchiveCommand cmd flag env db) := by
  simp only [verifyArchiveCommand, startTransaction, commitTransaction,
    rollbackTransaction, raiseErr, emit]
  by_cases h1 : (existsByName db cmd.archive_name).id < 0
  · rw [if_pos h1]
    exact envelope_error _ _ rfl rfl
  · rw [if_neg h1]
    by_cases h2 : env.verifyFail = true
    · simp only [if_bool_true h2]
      exact envelope_error _ _ rfl rfl
    · rw [Bool.not_eq_true] at h2
      simp only [if_bool_false h2]
      exact envelope_ok _ rfl ⟨_, rfl⟩

theorem alterArchive_envelope (cmd : CatalogDescr) (ignoreMissing : Bool) (env : Env)
    (db : DB) : Envelope (alterArchiveCommand cmd ignoreMissing env db) := by
  simp only [alterArchiveCommand, startTransaction, commitTransaction,
    rollbackTransaction, raiseErr, emit, updateArchiveAttributes]
  by_cases h1 : (existsByName db cmd.archive_name).id ≥ 0
  · rw [if_pos h1]
    exact envelope_ok _ rfl ⟨_, rfl⟩
  · rw [if_neg h1]
    cases ignoreMissing with
    | false =>
        simp only [Bool.not_false, if_true]
        exact envelope_error _ _ rfl rfl
    | true =>
        simp only [Bool.not_true, Bool.false_eq_true, if_false]
        exact envelope_ok _ rfl ⟨_, rfl⟩

theorem dropArchive_envelope (cmd : CatalogDescr) (existsOk : Bool) (env : Env)
    (db : DB) : Envelope (dropArchiveCommand cmd existsOk env db) := by
  simp only [dropArchiveCommand, startTransaction, commitTransaction,
    rollbackTransaction, raiseErr, emit]
  by_cases h1 : (existsByName db cmd.archive_name).id ≥ 0
  · rw [if_pos h1]
    exact envelope_ok _ rfl ⟨_, rfl⟩
  · rw [if_neg h1]
    cases existsOk with
    | false =>
        simp only [Bool.not_false, if_true]
        exact envelope_error _ _ rfl rfl
    | true =>
        simp only [Bool.not_true, Bool.false_eq_true, if_false]
        exact envelope_ok _ rfl ⟨_, rfl⟩

theorem createArchive_envelope (cmd : CatalogDescr) (existsOk : Bool) (env : Env)
    (db : DB) : Envelope (createArchiveCommand cmd existsOk env db) := by
  simp only [createArchiveCommand, startTransaction, commitTransaction,
    rollbackTransaction, raiseErr, emit, createArchiveStore, createCatalogConnection,
    updateArchiveAttributes]
  by_cases h1 : (existsDir db cmd.directory).id < 0
  · rw [if_pos h1]
    exact envelope_ok _ rfl ⟨_, rfl⟩
  · rw [if_neg h1]
    cases existsOk with
    | false =>
        simp only [Bool.not_false, if_true]
        exact envelope_error _ _ rfl rfl
    | true =>
        simp only [Bool.not_true, Bool.false_eq_true, if_false]
        exact envelope_ok _ rfl ⟨_, rfl⟩

theorem bbStreamPhase_envelope (cmd : CatalogDescr) (env : Env) (temp : CatalogDescr)
    (s : St) (hsnap : s.snap = none) (htx : txOpen s.trace = false)
    (hraised : s.raised = []) :
    Envelope ((bbStreamPhase cmd env temp s).st, (bbStreamPhase cmd env temp s).result) := by
  obtain ⟨A, B, _⟩ := bbStreamPhase_spec cmd env temp s hsnap htx hraised
  exact ⟨A, fun hok => ⟨(B hok).1, (B hok).2.1⟩⟩

theorem startBasebackup_envelope (cmd : CatalogDescr) (env : Env) (db : DB) :
    Envelope ((startBasebackupCommand cmd env db).st,
      (startBasebackupCommand cmd env db).result) := by
  simp only [startBasebackupCommand, startTransaction, commitTransaction,
    rollbackTransaction, raiseErr, emit]
  by_cases hA0 : (existsByName db cmd.archive_name).id ≥ 0
  · by_cases hg : env.getConnFail = true
    · simp only [if_pos (And.intro hA0 hg)]
      exact envelope_error _ _ rfl rfl
    · rw [Bool.not_eq_true] at hg
      have hcond : ¬((existsByName db cmd.archive_name).id ≥ 0
          ∧ env.getConnFail = true) := fun hc => by simp [hg] at hc
      have hnlt : ¬((existsByName db cmd.archive_name).id < 0) := not_lt.mpr hA0
      simp only [if_neg hcond, if_pos hA0, if_neg hnlt]
      by_cases hn : cmd.backup_profile.name = ""
      · simp only [if_neg (not_not_intro hn)]
        by_cases hp : env.getProfileFail = true
        · simp only [if_bool_true hp]
          exact envelope_error _ _ rfl rfl
        · rw [Bool.not_eq_true] at hp
          simp only [if_bool_false hp]
          by_cases hpid : (getBackupProfile db "default").profile_id < 0
          · simp only [if_pos hpid]
            exact envelope_error _ _ rfl rfl
          · simp only [if_neg hpid]
            exact bbStreamPhase_envelope cmd env _ _ rfl rfl rfl
      · simp only [if_pos hn]
        by_cases hp : env.getProfileFail = true
        · simp only [if_bool_true hp]
          exact envelope_error _ _ rfl rfl
        · rw [Bool.not_eq_true] at hp
          simp only [if_bool_false hp]
          by_cases hpid : (getBackupProfile db cmd.backup_profile.name).profile_id < 0
          · simp only [if_pos hpid]
            exact envelope_error _ _ rfl rfl
          · simp only [if_neg hpid]
            exact bbStreamPhase_envelope cmd env _ _ rfl rfl rfl
  · have hcond : ¬((existsByName db cmd.archive_name).id ≥ 0
        ∧ env.getConnFail = true) := fun hc => hA0 hc.1
    have hlt : (existsByName db cmd.archive_name).id < 0 := not_le.mp hA0
    simp only [if_neg hcond, if_neg hA0, if_pos hlt]
    exact envelope_error _ _ rfl rfl

/-- C8 (amended): every modeled command rolls back every transaction it
opened and re-raises the original error unchanged on a domain failure (the
reported error is the first one raised), and on success leaves no
transaction open with a commit as its final transaction call — except
`list-archive`, whose success path never commits: it leaves its transaction
open and closes the catalog instead. -/
theorem c8_transaction_envelope_amended (c : Cmd) (cmd : CatalogDescr) (flag : Bool)
    (env : Env) (db : DB) :
    (∀ e, (execCmd c cmd flag env db).2 = Except.error e →
      (execCmd c cmd flag env db).1.raised.head? = some e
      ∧ txOpen (execCmd c cmd flag env db).1.trace = false)
    ∧ ((execCmd c cmd flag env db).2 = Except.ok () → (∀ m, c ≠ Cmd.listArchive m) →
      txOpen (execCmd c cmd flag env db).1.trace = false
      ∧ ∃ pre, (execCmd c cmd flag env db).1.trace = pre ++ [Event.txCommit])
    ∧ (∀ m, c = Cmd.listArchive m → (execCmd c cmd flag env db).2 = Except.ok () →
      commitEvCount (execCmd c cmd flag env db).1.trace = 0
      ∧ txOpen (execCmd c cmd flag env db).1.trace = true) := by
  cases c with
  | dropConnection =>
      obtain ⟨A, B⟩ := dropConnection_envelope cmd flag env db
      exact ⟨A, fun hok _ => B hok, fun m hm => by simp at hm⟩
  | listConnection =>
      obtain ⟨A, B⟩ := listConnection_envelope cmd flag env db
      exact ⟨A, fun hok _ => B hok, fun m hm => by simp at hm⟩
  | createConnection =>
      obtain ⟨A, B⟩ := createConnection_envelope cmd flag env db
      exact ⟨A, fun hok _ => B hok, fun m hm => by simp at hm⟩
  | listBackupCatalog =>
      obtain ⟨A, B⟩ := listBackupCatalog_envelope cmd flag env db
      exact ⟨A, fun hok _ => B hok, fun m hm => by simp at hm⟩
  | startBasebackup =>
      obtain ⟨A, B⟩ := startBasebackup_envelope cmd env db
      exact ⟨A, fun hok _ => B hok, fun m hm => by simp at hm⟩
  | dropBackupProfile =>
      obtain ⟨A, B⟩ := dropBackupProfile_envelope cmd flag env db
      exact ⟨A, fun hok _ => B hok, fun m hm => by simp at hm⟩
  | listBackupProfile detail =>
      obtain ⟨A, B⟩ := listBackupProfile_envelope detail cmd env db
      exact ⟨A, fun hok _ => B hok, fun m hm => by simp at hm⟩
  | createBackupProfile =>
      obtain ⟨A, B⟩ := createBackupProfile_envelope cmd flag env db
      exact ⟨A, fun hok _ => B hok, fun m hm => by simp at hm⟩
  | verifyArchive =>
      obtain ⟨A, B⟩ := verifyArchive_envelope cmd flag env db
      exact ⟨A, fun hok _ => B hok, fun m hm => by simp at hm⟩
  | alterArchive =>
      obtain ⟨A, B⟩ := alterArchive_envelope cmd flag env db
      exact ⟨A, fun hok _ => B hok, fun m hm => by simp at hm⟩
  | dropArchive =>
      obtain ⟨A, B⟩ := dropArchive_envelope cmd flag env db
      exact ⟨A, fun hok _ => B hok, fun m hm => by simp at hm⟩
  | createArchive =>
      obtain ⟨A, B⟩ := createArchive_envelope cmd flag env db
      exact ⟨A, fun hok _ => B hok, fun m hm => by simp at hm⟩
  | listArchive mode =>
      refine ⟨?_, fun _ hne => absurd rfl (hne mode), ?_⟩
      · simp only [execCmd, listArchiveCommand, startTransaction, rollbackTransaction,
          raiseErr, emit]
        by_cases hl : env.listFail = true
        · simp only [if_bool_true hl]
          intro e he
          injection he with h
          exact h ▸ ⟨rfl, rfl⟩
        · rw [Bool.not_eq_true] at hl
          simp only [if_bool_false hl]
          intro e he
          simp at he
      · intro m _ hok
        simp only [execCmd, listArchiveCommand, startTransaction, rollbackTransaction,
          raiseErr, emit] at hok ⊢
        by_cases hl : env.listFail = true
        · simp only [if_bool_true hl] at hok
          simp at hok
        · rw [Bool.not_eq_true] at hl
          simp only [if_bool_false hl]
          exact ⟨rfl, rfl⟩

/-- C8 witness: `drop-connection` on an empty catalog fails with the
archive-missing error, which is the only raised error, with no transaction
left open. -/
theorem c8_transaction_envelope_witness :
    (execCmd Cmd.dropConnection sampleCmd false {} {}).1.raised.head? =
      some (Err.archiveMissing "A")
    ∧ txOpen (execCmd Cmd.dropConnection sampleCmd false {} {}).1.trace = false :=
  (c8_transaction_envelope_amended Cmd.dropConnection sampleCmd false {} {}).1
    (Err.archiveMissing "A") rfl

/-- C8 counterexample: a successful `list-archive` run never commits: its
trace is the opened transaction followed by closing the catalog, so the
claim that every command commits its transaction on success is false. -/
theorem c8_list_archive_counterexample :
    (listArchiveCommand ListArchiveOutputMode.archiveList sampleCmd {} sampleDb).2 =
      Except.ok ()
    ∧ (listArchiveCommand ListArchiveOutputMode.archiveList sampleCmd {} sampleDb).1.trace =
        [Event.txStart, Event.close]
    ∧ commitEvCount (listArchiveCommand ListArchiveOutputMode.archiveList sampleCmd {}
        sampleDb).1.trace = 0
    ∧ txOpen (listArchiveCommand ListArchiveOutputMode.archiveList sampleCmd {}
        sampleDb).1.trace = true :=
  ⟨rfl, rfl, rfl, rfl⟩

end PgBackupCtl
